import Mathlib

/-!
# Verification of the SCPI lexer (`src/libscpi/src/lexer.c`)

Shallow embedding of the lexer's data model and token detectors.
The C buffer is a read-only byte array; here `List Char` (each char one
byte, code points 0..255).  The C cursor `state->pos` is a pointer into
the buffer; here a `Nat` offset.  `state->len` is the buffer length.
Maximal-run C `while` loops over the remaining bytes are rendered as
structural recursion over the byte-list suffix starting at the cursor.
Token `len` is a C `int`, hence `Int` (a caller-supplied token may carry
any value, which `scpiLex_ProgramExpression` can observe).
-/

/-- Lexer state: `lex_state_t` with `buffer`, `len = buffer.length` and the
cursor `pos` as an offset. -/
structure lex_state_t where
  buffer : List Char
  pos : Nat
deriving DecidableEq

/-- Token type tags from `scpi_token_t`'s enumeration. -/
inductive scpi_token_type
  | SCPI_TOKEN_COMMA
  | SCPI_TOKEN_SEMICOLON
  | SCPI_TOKEN_COLON
  | SCPI_TOKEN_SPECIFIC_CHARACTER
  | SCPI_TOKEN_QUESTION
  | SCPI_TOKEN_NL
  | SCPI_TOKEN_HEXNUM
  | SCPI_TOKEN_OCTNUM
  | SCPI_TOKEN_BINNUM
  | SCPI_TOKEN_PROGRAM_MNEMONIC
  | SCPI_TOKEN_DECIMAL_NUMERIC_PROGRAM_DATA
  | SCPI_TOKEN_SUFFIX_PROGRAM_DATA
  | SCPI_TOKEN_ARBITRARY_BLOCK_PROGRAM_DATA
  | SCPI_TOKEN_SINGLE_QUOTE_PROGRAM_DATA
  | SCPI_TOKEN_DOUBLE_QUOTE_PROGRAM_DATA
  | SCPI_TOKEN_PROGRAM_EXPRESSION
  | SCPI_TOKEN_COMMON_PROGRAM_HEADER
  | SCPI_TOKEN_COMMON_QUERY_PROGRAM_HEADER
  | SCPI_TOKEN_COMPOUND_PROGRAM_HEADER
  | SCPI_TOKEN_COMPOUND_QUERY_PROGRAM_HEADER
  | SCPI_TOKEN_INCOMPLETE_COMMON_PROGRAM_HEADER
  | SCPI_TOKEN_INCOMPLETE_COMPOUND_PROGRAM_HEADER
  | SCPI_TOKEN_WS
  | SCPI_TOKEN_UNKNOWN
deriving DecidableEq

open scpi_token_type

/-- `scpi_token_t`: a view into the buffer (`ptr` as an offset), a length
(C `int`) and a type tag. -/
structure scpi_token_t where
  ptr : Nat
  len : Int
  type : scpi_token_type
deriving DecidableEq

/-- `is_ws`: space or horizontal tab. -/
def is_ws (c : Char) : Bool := c == ' ' || c == '\t'

/-- `is_b_digit`: binary digit. -/
def is_b_digit (c : Char) : Bool := c == '0' || c == '1'

/-- `is_q_digit`: octal digit. -/
def is_q_digit (c : Char) : Bool :=
  c == '0' || c == '1' || c == '2' || c == '3' || c == '4' || c == '5' || c == '6' || c == '7'

/-- `is_eos`: the cursor is at or past the end of the buffer
(`state->buffer + state->len <= state->pos`). -/
def is_eos (s : lex_state_t) : Bool := decide (s.buffer.length ≤ s.pos)

/-- The byte at the cursor, `state->pos[0]`; every use in the source is
guarded by `!is_eos`, so the out-of-range default is never observed. -/
def cur (s : lex_state_t) : Char := s.buffer.getD s.pos (Char.ofNat 0)

/-- `ischr`: the byte at the cursor equals `chr`. -/
def ischr (s : lex_state_t) (chr : Char) : Bool := cur s == chr

/-- `is_plus_minus`. -/
def is_plus_minus (c : Char) : Bool := c == '+' || c == '-'

/-- `isH`. -/
def isH (c : Char) : Bool := c == 'h' || c == 'H'

/-- `isB`. -/
def isB (c : Char) : Bool := c == 'b' || c == 'B'

/-- `isQ`. -/
def isQ (c : Char) : Bool := c == 'q' || c == 'Q'

/-- `isE`. -/
def isE (c : Char) : Bool := c == 'e' || c == 'E'

/-- ctype `isdigit` on a byte. -/
def c_isdigit (c : Char) : Bool := c.isDigit

/-- ctype `isalpha` on a byte (C locale: ASCII letters). -/
def c_isalpha (c : Char) : Bool := c.isAlpha

/-- ctype `isalnum` on a byte. -/
def c_isalnum (c : Char) : Bool := c.isAlphanum

/-- ctype `isxdigit` on a byte. -/
def c_isxdigit (c : Char) : Bool :=
  c.isDigit || ('a' ≤ c && c ≤ 'f') || ('A' ≤ c && c ≤ 'F')

def SKIP_NONE : Int := 0
def SKIP_OK : Int := 1
def SKIP_INCOMPLETE : Int := -1

/-- Number of bytes a maximal-run loop (`while (!is_eos && p(cur)) pos++`)
consumes from the remaining byte list. -/
def skipWhileAux (p : Char → Bool) : List Char → Nat
  | [] => 0
  | c :: cs => if p c then skipWhileAux p cs + 1 else 0

/-- Advance the cursor over a maximal run of bytes satisfying `p`,
returning the count consumed. -/
def skipWhile (p : Char → Bool) (s : lex_state_t) : Nat × lex_state_t :=
  (skipWhileAux p (s.buffer.drop s.pos),
   { s with pos := s.pos + skipWhileAux p (s.buffer.drop s.pos) })

/-- `skipWs`: skip all whitespace, return the count. -/
def skipWs (s : lex_state_t) : Nat × lex_state_t := skipWhile is_ws s

/-- `skipDigit`: skip a single decimal digit. -/
def skipDigit (s : lex_state_t) : Nat × lex_state_t :=
  if !is_eos s && c_isdigit (cur s) then (1, { s with pos := s.pos + 1 }) else (0, s)

/-- `skipNumbers`: skip a maximal run of decimal digits, return the count. -/
def skipNumbers (s : lex_state_t) : Nat × lex_state_t := skipWhile c_isdigit s

/-- `skipPlusmn`: skip a single `+` or `-`. -/
def skipPlusmn (s : lex_state_t) : Nat × lex_state_t :=
  if !is_eos s && is_plus_minus (cur s) then (1, { s with pos := s.pos + 1 }) else (0, s)

/-- `skipAlpha`: skip a maximal run of letters, return the count. -/
def skipAlpha (s : lex_state_t) : Nat × lex_state_t := skipWhile c_isalpha s

/-- `skipChr`: skip exactly one occurrence of `chr` or nothing. -/
def skipChr (s : lex_state_t) (chr : Char) : Nat × lex_state_t :=
  if !is_eos s && ischr s chr then (1, { s with pos := s.pos + 1 }) else (0, s)

/-- `skipSlashDot`: skip a single `/` or `.`. -/
def skipSlashDot (s : lex_state_t) : Nat × lex_state_t :=
  if !is_eos s && (ischr s '/' || ischr s '.') then (1, { s with pos := s.pos + 1 }) else (0, s)

/-- `skipStar`. -/
def skipStar (s : lex_state_t) : Nat × lex_state_t := skipChr s '*'

/-- `skipColon`. -/
def skipColon (s : lex_state_t) : Nat × lex_state_t := skipChr s ':'

/-- `skipProgramMnemonic`: one letter then a run of alphanumeric or `_`;
result is the count, negated (`* SKIP_INCOMPLETE`) when the scan stopped
at end-of-buffer. -/
def skipProgramMnemonic (s : lex_state_t) : Int × lex_state_t :=
  let s2 :=
    if !is_eos s && c_isalpha (cur s) then
      (skipWhile (fun c => c_isalnum c || c == '_') { s with pos := s.pos + 1 }).2
    else s
  if is_eos s2 then (((s2.pos - s.pos : Nat) : Int) * SKIP_INCOMPLETE, s2)
  else (((s2.pos - s.pos : Nat) : Int) * SKIP_OK, s2)

/-- The `"` byte. -/
def dquote : Char := Char.ofNat 34

/-- The `'` byte. -/
def squote : Char := Char.ofNat 39

/-- `scpiLex_WhiteSpace`: detect a whitespace token.  Detectors take the
state and the caller-supplied token struct, and return the C `int` result
together with the updated state and token. -/
def scpiLex_WhiteSpace (s : lex_state_t) (t : scpi_token_t) :
    Int × lex_state_t × scpi_token_t :=
  let t0 := { t with ptr := s.pos }
  let s1 := (skipWs s).2
  let len : Int := ((s1.pos - t0.ptr : Nat) : Int)
  let ty := if len > 0 then SCPI_TOKEN_WS else SCPI_TOKEN_UNKNOWN
  (len, s1, { t0 with len := len, type := ty })

/-- `skipCommonProgramHeader`: `*` then a program mnemonic. -/
def skipCommonProgramHeader (s : lex_state_t) : Int × lex_state_t :=
  if (skipStar s).1 = 1 then
    let r := skipProgramMnemonic (skipStar s).2
    if r.1 = SKIP_NONE ∧ is_eos r.2 then (SKIP_INCOMPLETE, r.2)
    else if r.1 ≤ SKIP_INCOMPLETE ∨ r.1 ≥ SKIP_OK then (SKIP_OK, r.2)
    else (SKIP_INCOMPLETE, r.2)
  else (SKIP_NONE, s)

/-- The colon-repeat loop of `skipCompoundProgramHeader`
(`while (skipColon) { res = skipProgramMnemonic; ... }`), with an explicit
fuel bound.  Every iteration that recurses consumes at least two bytes
while fuel drops by one, so with fuel exceeding the bytes remaining the
base case is never reached. -/
def compoundLoop : Nat → lex_state_t → Int × lex_state_t
  | 0, s => (SKIP_OK, s)
  | fuel + 1, s =>
    if (skipColon s).1 = 1 then
      let r := skipProgramMnemonic (skipColon s).2
      if r.1 ≤ SKIP_INCOMPLETE then (SKIP_OK, r.2)
      else if r.1 = SKIP_NONE then (SKIP_INCOMPLETE, r.2)
      else compoundLoop fuel r.2
    else (SKIP_OK, s)

/-- `skipCompoundProgramHeader`: optional leading `:`, then mnemonics
separated by `:`. -/
def skipCompoundProgramHeader (s : lex_state_t) : Int × lex_state_t :=
  let firstColon := (skipColon s).1
  let r := skipProgramMnemonic (skipColon s).2
  if r.1 ≥ SKIP_OK then compoundLoop (r.2.buffer.length + 1) r.2
  else if r.1 ≤ SKIP_INCOMPLETE then (SKIP_OK, r.2)
  else if firstColon = 1 then (SKIP_INCOMPLETE, r.2)
  else (SKIP_NONE, r.2)

/-- The `token->type` classification chain of `scpiLex_ProgramHeader`
(the nested if/else on the results of `skipCommonProgramHeader` and
`skipCompoundProgramHeader`), named separately so its result can be
reasoned about without the surrounding token bookkeeping. -/
def scpiLex_ProgramHeaderClassify (s : lex_state_t) : scpi_token_type × lex_state_t :=
  let rc := skipCommonProgramHeader s
  if rc.1 ≥ SKIP_OK then
    if (skipChr rc.2 '?').1 ≥ 1 then
      (SCPI_TOKEN_COMMON_QUERY_PROGRAM_HEADER, (skipChr rc.2 '?').2)
    else (SCPI_TOKEN_COMMON_PROGRAM_HEADER, rc.2)
  else if rc.1 ≤ SKIP_INCOMPLETE then
    (SCPI_TOKEN_INCOMPLETE_COMMON_PROGRAM_HEADER, rc.2)
  else
    let rp := skipCompoundProgramHeader rc.2
    if rp.1 ≥ SKIP_OK then
      if (skipChr rp.2 '?').1 ≥ 1 then
        (SCPI_TOKEN_COMPOUND_QUERY_PROGRAM_HEADER, (skipChr rp.2 '?').2)
      else (SCPI_TOKEN_COMPOUND_PROGRAM_HEADER, rp.2)
    else if rp.1 ≤ SKIP_INCOMPLETE then
      (SCPI_TOKEN_INCOMPLETE_COMPOUND_PROGRAM_HEADER, rp.2)
    else (SCPI_TOKEN_UNKNOWN, rp.2)

/-- `scpiLex_ProgramHeader`: detect a common or compound program header. -/
def scpiLex_ProgramHeader (s : lex_state_t) (t : scpi_token_t) :
    Int × lex_state_t × scpi_token_t :=
  let t0 := { t with ptr := s.pos, type := SCPI_TOKEN_UNKNOWN }
  let tys := scpiLex_ProgramHeaderClassify s
  if tys.1 ≠ SCPI_TOKEN_UNKNOWN then
    let t1 := { t0 with type := tys.1, len := ((tys.2.pos - t0.ptr : Nat) : Int) }
    (t1.len, tys.2, t1)
  else
    (0, { tys.2 with pos := t0.ptr }, { t0 with type := tys.1, len := 0 })

/-- `scpiLex_CharacterProgramData`: a letter then alphanumerics or `_`. -/
def scpiLex_CharacterProgramData (s : lex_state_t) (t : scpi_token_t) :
    Int × lex_state_t × scpi_token_t :=
  let t0 := { t with ptr := s.pos }
  let s1 :=
    if !is_eos s && c_isalpha (cur s) then
      (skipWhile (fun c => c_isalnum c || c == '_') { s with pos := s.pos + 1 }).2
    else s
  let len : Int := ((s1.pos - t0.ptr : Nat) : Int)
  let ty := if len > 0 then SCPI_TOKEN_PROGRAM_MNEMONIC else SCPI_TOKEN_UNKNOWN
  (len, s1, { t0 with len := len, type := ty })

/-- `skipMantissa`: optional sign, digits, optional `.` and digits;
returns the number of digits seen. -/
def skipMantissa (s : lex_state_t) : Nat × lex_state_t :=
  let r1 := skipNumbers (skipPlusmn s).2
  if (skipChr r1.2 '.').1 = 1 then
    let r2 := skipNumbers (skipChr r1.2 '.').2
    (r1.1 + r2.1, r2.2)
  else r1

/-- `skipExponent`: `E`/`e`, optional whitespace, optional sign, digits;
returns the number of exponent digits seen. -/
def skipExponent (s : lex_state_t) : Nat × lex_state_t :=
  if !is_eos s && isE (cur s) then
    skipNumbers (skipPlusmn (skipWs { s with pos := s.pos + 1 }).2).2
  else (0, s)

/-- `scpiLex_DecimalNumericProgramData`: mantissa with optional exponent,
rolling the cursor back to just after the mantissa when the exponent
attempt yields no digits. -/
def scpiLex_DecimalNumericProgramData (s : lex_state_t) (t : scpi_token_t) :
    Int × lex_state_t × scpi_token_t :=
  let t0 := { t with ptr := s.pos }
  let rm := skipMantissa s
  let s2 :=
    if rm.1 ≠ 0 then
      let rE := skipExponent (skipWs rm.2).2
      if rE.1 = 0 then { rE.2 with pos := rm.2.pos } else rE.2
    else { rm.2 with pos := t0.ptr }
  let len : Int := ((s2.pos - t0.ptr : Nat) : Int)
  let ty := if len > 0 then SCPI_TOKEN_DECIMAL_NUMERIC_PROGRAM_DATA else SCPI_TOKEN_UNKNOWN
  (len, s2, { t0 with len := len, type := ty })

/-- The `while (skipSlashDot) { skipAlpha; skipChr '-'; skipDigit }` loop
of `scpiLex_SuffixProgramData`, with fuel (each iteration consumes at
least the slash or dot, so the base case is never reached with fuel
exceeding the bytes remaining). -/
def suffixLoop : Nat → lex_state_t → lex_state_t
  | 0, s => s
  | fuel + 1, s =>
    if (skipSlashDot s).1 = 1 then
      suffixLoop fuel (skipDigit (skipChr (skipAlpha (skipSlashDot s).2).2 '-').2).2
    else s

/-- `scpiLex_SuffixProgramData`. -/
def scpiLex_SuffixProgramData (s : lex_state_t) (t : scpi_token_t) :
    Int × lex_state_t × scpi_token_t :=
  let t0 := { t with ptr := s.pos }
  let s1 := (skipChr s '/').2
  let s2 :=
    if (skipAlpha s1).1 ≠ 0 then
      suffixLoop (s.buffer.length + 1)
        (skipDigit (skipChr (skipAlpha s1).2 '-').2).2
    else s1
  let len : Int := ((s2.pos - t0.ptr : Nat) : Int)
  if len > 0 then
    (len, s2, { t0 with len := len, type := SCPI_TOKEN_SUFFIX_PROGRAM_DATA })
  else
    (0, { s2 with pos := t0.ptr }, { t0 with len := 0, type := SCPI_TOKEN_UNKNOWN })

/-- `skipHexNum`. -/
def skipHexNum (s : lex_state_t) : Nat × lex_state_t := skipWhile c_isxdigit s

/-- `skipOctNum`. -/
def skipOctNum (s : lex_state_t) : Nat × lex_state_t := skipWhile is_q_digit s

/-- `skipBinNum`. -/
def skipBinNum (s : lex_state_t) : Nat × lex_state_t := skipWhile is_b_digit s

/-- `scpiLex_NondecimalNumericData`: `#H`/`#Q`/`#B` then digits of that
base; the token covers only the digit run, the return value counts the
two prefix bytes too. -/
def scpiLex_NondecimalNumericData (s : lex_state_t) (t : scpi_token_t) :
    Int × lex_state_t × scpi_token_t :=
  let t0 := { t with ptr := s.pos }
  let nst : Nat × lex_state_t × scpi_token_type :=
    if (skipChr s '#').1 = 1 then
      let s1 := (skipChr s '#').2
      if !is_eos s1 then
        if isH (cur s1) then
          let r := skipHexNum { s1 with pos := s1.pos + 1 }
          (r.1, r.2, SCPI_TOKEN_HEXNUM)
        else if isQ (cur s1) then
          let r := skipOctNum { s1 with pos := s1.pos + 1 }
          (r.1, r.2, SCPI_TOKEN_OCTNUM)
        else if isB (cur s1) then
          let r := skipBinNum { s1 with pos := s1.pos + 1 }
          (r.1, r.2, SCPI_TOKEN_BINNUM)
        else (0, s1, t0.type)
      else (0, s1, t0.type)
    else (0, s, t0.type)
  if nst.1 ≠ 0 then
    let t1 : scpi_token_t := { t0 with ptr := t0.ptr + 2, len := ((nst.2.1.pos - (t0.ptr + 2) : Nat) : Int), type := nst.2.2 }
    (if t1.len > 0 then t1.len + 2 else 0, nst.2.1, t1)
  else
    (0, { nst.2.1 with pos := t0.ptr }, { t0 with type := SCPI_TOKEN_UNKNOWN, len := 0 })

/-- `isascii7bit` (C `char` is signed: bytes ≥ 0x80 are negative and
rejected). -/
def isascii7bit (c : Char) : Bool := decide (c.toNat ≤ 0x7f)

/-- Bytes consumed by the body loop of `skipQuoteProgramData`: any
7-bit byte other than the quote is consumed; a quote followed by the same
quote consumes both and continues; otherwise the tentatively consumed
quote is put back (`pos--`) and the loop breaks, leaving the cursor on
the closing quote. -/
def skipQuoteAux (quote : Char) : List Char → Nat
  | [] => 0
  | c :: cs =>
    if isascii7bit c && !(c == quote) then skipQuoteAux quote cs + 1
    else if c == quote then
      match cs with
      | c2 :: cs2 => if c2 == quote then skipQuoteAux quote cs2 + 2 else 0
      | [] => 0
    else 0

/-- `skipQuoteProgramData`. -/
def skipQuoteProgramData (s : lex_state_t) (quote : Char) : lex_state_t :=
  { s with pos := s.pos + skipQuoteAux quote (s.buffer.drop s.pos) }

/-- `skipDoubleQuoteProgramData`. -/
def skipDoubleQuoteProgramData (s : lex_state_t) : lex_state_t :=
  skipQuoteProgramData s dquote

/-- `skipSingleQuoteProgramData`. -/
def skipSingleQuoteProgramData (s : lex_state_t) : lex_state_t :=
  skipQuoteProgramData s squote

/-- `scpiLex_StringProgramData`: a quoted string whose span keeps both
outer quotes. -/
def scpiLex_StringProgramData (s : lex_state_t) (t : scpi_token_t) :
    Int × lex_state_t × scpi_token_t :=
  let t0 := { t with ptr := s.pos }
  let st : lex_state_t × scpi_token_t :=
    if !is_eos s then
      if ischr s dquote then
        let tA := { t0 with type := SCPI_TOKEN_DOUBLE_QUOTE_PROGRAM_DATA }
        let sb := skipDoubleQuoteProgramData { s with pos := s.pos + 1 }
        if !is_eos sb && ischr sb dquote then
          ({ sb with pos := sb.pos + 1 },
           { tA with len := ((sb.pos + 1 - tA.ptr : Nat) : Int) })
        else ({ sb with pos := tA.ptr }, tA)
      else if ischr s squote then
        let tA := { t0 with type := SCPI_TOKEN_SINGLE_QUOTE_PROGRAM_DATA }
        let sb := skipSingleQuoteProgramData { s with pos := s.pos + 1 }
        if !is_eos sb && ischr sb squote then
          ({ sb with pos := sb.pos + 1 },
           { tA with len := ((sb.pos + 1 - tA.ptr : Nat) : Int) })
        else ({ sb with pos := tA.ptr }, tA)
      else (s, t0)
    else (s, t0)
  let t2 : scpi_token_t := { st.2 with len := ((st.1.pos - st.2.ptr : Nat) : Int) }
  if t2.len > 0 then (t2.len, st.1, t2)
  else (0, { st.1 with pos := t2.ptr }, { t2 with type := SCPI_TOKEN_UNKNOWN, len := 0 })

/-- `isNonzeroDigit`. -/
def isNonzeroDigit (c : Char) : Bool := c_isdigit c && !(c == '0')

/-- The digit-reading `for` loop of `scpiLex_ArbitraryBlockProgramData`:
read up to `i` decimal digits into the accumulated block length, breaking
early at a non-digit or end-of-buffer; returns the remaining `i`, the
accumulated length and the state. -/
def readBlockLength : Nat → Nat → lex_state_t → Nat × Nat × lex_state_t
  | 0, acc, s => (0, acc, s)
  | i + 1, acc, s =>
    if !is_eos s && c_isdigit (cur s) then
      readBlockLength i (acc * 10 + ((cur s).toNat - 48)) { s with pos := s.pos + 1 }
    else (i + 1, acc, s)

/-- The decimal value accumulated by the digit-reading loop over a given
digit list, starting from `acc`. -/
def digitsAcc (acc : Nat) : List Char → Nat
  | [] => acc
  | c :: cs => digitsAcc (acc * 10 + (c.toNat - 48)) cs

/-- The scanning phase of `scpiLex_ArbitraryBlockProgramData`: the header
and payload walk that computes `validData` (`1` valid, `0` incomplete,
`-1` invalid), the state reached, and the token's provisional ptr/len;
named separately from the final `validData` dispatch. -/
def scpiLex_ArbitraryBlockScan (s : lex_state_t) (t0 : scpi_token_t) :
    Int × lex_state_t × scpi_token_t :=
  if (skipChr s '#').1 = 1 then
    let s1 := (skipChr s '#').2
    if !is_eos s1 && isNonzeroDigit (cur s1) then
      let rd := readBlockLength ((cur s1).toNat - 48) 0 { s1 with pos := s1.pos + 1 }
      if rd.1 = 0 then
        let s4 := { rd.2.2 with pos := rd.2.2.pos + rd.2.1 }
        if s4.pos ≤ s4.buffer.length then
          ((1 : Int), s4, { t0 with ptr := s4.pos - rd.2.1, len := (rd.2.1 : Int) })
        else ((0 : Int), s4, t0)
      else if is_eos rd.2.2 then ((0 : Int), rd.2.2, t0)
      else ((-1 : Int), rd.2.2, t0)
    else if is_eos s1 then ((0 : Int), s1, t0)
    else ((-1 : Int), s1, t0)
  else ((-1 : Int), s, t0)

/-- `scpiLex_ArbitraryBlockProgramData`: `#`, a non-zero digit N, N length
digits giving L, then L raw payload bytes.  `validData` is `1` for valid,
`0` for incomplete (cursor forced to end-of-buffer), `-1` for invalid
(cursor restored). -/
def scpiLex_ArbitraryBlockProgramData (s : lex_state_t) (t : scpi_token_t) :
    Int × lex_state_t × scpi_token_t :=
  let ptr := s.pos
  let t0 := { t with ptr := s.pos }
  let vst := scpiLex_ArbitraryBlockScan s t0
  if vst.1 = 1 then
    let tR := { vst.2.2 with type := SCPI_TOKEN_ARBITRARY_BLOCK_PROGRAM_DATA }
    (tR.len + ((tR.ptr : Int) - (ptr : Int)), vst.2.1, tR)
  else if vst.1 = 0 then
    let tR := { vst.2.2 with type := SCPI_TOKEN_UNKNOWN, len := 0 }
    (tR.len + ((tR.ptr : Int) - (ptr : Int)), { vst.2.1 with pos := vst.2.1.buffer.length }, tR)
  else
    let tR := { vst.2.2 with type := SCPI_TOKEN_UNKNOWN, len := 0 }
    (tR.len + ((tR.ptr : Int) - (ptr : Int)), { vst.2.1 with pos := vst.2.2.ptr }, tR)

/-- `isProgramExpression`: printable 7-bit byte other than
`"`, `#`, `'`, `(`, `)`, `;`. -/
def isProgramExpression (c : Char) : Bool :=
  (decide (0x20 ≤ c.toNat) && decide (c.toNat ≤ 0x7e)) &&
    !(c == dquote) && !(c == '#') && !(c == squote) &&
    !(c == '(') && !(c == ')') && !(c == ';')

/-- `skipProgramExpression`. -/
def skipProgramExpression (s : lex_state_t) : lex_state_t :=
  (skipWhile isProgramExpression s).2

/-- `scpiLex_ProgramExpression`: `(`, expression bytes, `)`.  When the
opening `(` is absent, `token->len` keeps its caller-supplied value and is
then consulted by `if (token->len > 0)`. -/
def scpiLex_ProgramExpression (s : lex_state_t) (t : scpi_token_t) :
    Int × lex_state_t × scpi_token_t :=
  let t0 := { t with ptr := s.pos }
  let st : lex_state_t × scpi_token_t :=
    if !is_eos s && ischr s '(' then
      let sb := skipProgramExpression { s with pos := s.pos + 1 }
      if !is_eos sb && ischr sb ')' then
        ({ sb with pos := sb.pos + 1 },
         { t0 with len := ((sb.pos + 1 - t0.ptr : Nat) : Int) })
      else (sb, { t0 with len := 0 })
    else (s, t0)
  if st.2.len > 0 then (st.2.len, st.1, { st.2 with type := SCPI_TOKEN_PROGRAM_EXPRESSION })
  else (0, { st.1 with pos := st.2.ptr }, { st.2 with type := SCPI_TOKEN_UNKNOWN, len := 0 })

/-- `scpiLex_Comma`. -/
def scpiLex_Comma (s : lex_state_t) (t : scpi_token_t) :
    Int × lex_state_t × scpi_token_t :=
  let t0 := { t with ptr := s.pos }
  if (skipChr s ',').1 = 1 then
    (1, (skipChr s ',').2, { t0 with len := 1, type := SCPI_TOKEN_COMMA })
  else (0, s, { t0 with len := 0, type := SCPI_TOKEN_UNKNOWN })

/-- `scpiLex_Semicolon`. -/
def scpiLex_Semicolon (s : lex_state_t) (t : scpi_token_t) :
    Int × lex_state_t × scpi_token_t :=
  let t0 := { t with ptr := s.pos }
  if (skipChr s ';').1 = 1 then
    (1, (skipChr s ';').2, { t0 with len := 1, type := SCPI_TOKEN_SEMICOLON })
  else (0, s, { t0 with len := 0, type := SCPI_TOKEN_UNKNOWN })

/-- `scpiLex_Colon`. -/
def scpiLex_Colon (s : lex_state_t) (t : scpi_token_t) :
    Int × lex_state_t × scpi_token_t :=
  let t0 := { t with ptr := s.pos }
  if (skipChr s ':').1 = 1 then
    (1, (skipChr s ':').2, { t0 with len := 1, type := SCPI_TOKEN_COLON })
  else (0, s, { t0 with len := 0, type := SCPI_TOKEN_UNKNOWN })

/-- `scpiLex_SpecificCharacter`. -/
def scpiLex_SpecificCharacter (s : lex_state_t) (t : scpi_token_t) (chr : Char) :
    Int × lex_state_t × scpi_token_t :=
  let t0 := { t with ptr := s.pos }
  if (skipChr s chr).1 = 1 then
    (1, (skipChr s chr).2, { t0 with len := 1, type := SCPI_TOKEN_SPECIFIC_CHARACTER })
  else (0, s, { t0 with len := 0, type := SCPI_TOKEN_UNKNOWN })

/-- `scpiLex_NewLine`: `\r` and/or `\n`, in that order. -/
def scpiLex_NewLine (s : lex_state_t) (t : scpi_token_t) :
    Int × lex_state_t × scpi_token_t :=
  let t0 := { t with ptr := s.pos }
  let s2 := (skipChr (skipChr s '\r').2 '\n').2
  let len : Int := ((s2.pos - t0.ptr : Nat) : Int)
  if len > 0 then (len, s2, { t0 with len := len, type := SCPI_TOKEN_NL })
  else (0, { s2 with pos := t0.ptr }, { t0 with len := 0, type := SCPI_TOKEN_UNKNOWN })

/-- A state positioned at the start of a string's byte list (for concrete
inputs). -/
def stateOf (str : String) : lex_state_t := ⟨str.toList, 0⟩

/-- An all-zero caller-supplied token (the well-initialized case). -/
def token0 : scpi_token_t := ⟨0, 0, SCPI_TOKEN_UNKNOWN⟩

/-- The byte-range view `[off, off+len)` of a buffer that a token
describes. -/
def tokSlice (buffer : List Char) (off len : Nat) : List Char :=
  (buffer.drop off).take len

/-! ## Basic facts about the skip primitives -/

theorem skipWhileAux_le (p : Char → Bool) : ∀ l : List Char, skipWhileAux p l ≤ l.length := by
  intro l
  induction l with
  | nil => simp [skipWhileAux]
  | cons c cs ih =>
    simp only [skipWhileAux, List.length_cons]
    split
    · omega
    · omega

theorem skipQuoteAux_le_aux (quote : Char) :
    ∀ (n : Nat) (l : List Char), l.length ≤ n → skipQuoteAux quote l ≤ l.length := by
  intro n
  induction n with
  | zero =>
    intro l hl
    have : l = [] := List.eq_nil_of_length_eq_zero (by omega)
    simp [this, skipQuoteAux]
  | succ n ih =>
    intro l hl
    match l with
    | [] => simp [skipQuoteAux]
    | c :: cs =>
      rw [skipQuoteAux.eq_def]
      dsimp only
      split
      · have := ih cs (by simp at hl; omega)
        simp
        omega
      · split
        · match cs with
          | c2 :: cs2 =>
            dsimp only
            split
            · have := ih cs2 (by simp at hl; omega)
              simp
              omega
            · simp
          | [] => simp
        · simp

theorem skipQuoteAux_le (quote : Char) (l : List Char) : skipQuoteAux quote l ≤ l.length :=
  skipQuoteAux_le_aux quote l.length l (le_refl _)

/-- A detector or skip step preserves the buffer, never moves the cursor
backward, and never moves it past the buffer end (unless it already was
past it). -/
def stepOk (s s' : lex_state_t) : Prop :=
  s'.buffer = s.buffer ∧ s.pos ≤ s'.pos ∧ s'.pos ≤ max s.pos s.buffer.length

theorem stepOk_refl (s : lex_state_t) : stepOk s s := ⟨rfl, le_refl _, le_max_left _ _⟩

theorem stepOk_trans {s1 s2 s3 : lex_state_t} (h1 : stepOk s1 s2) (h2 : stepOk s2 s3) :
    stepOk s1 s3 := by
  obtain ⟨hb1, hl1, hu1⟩ := h1
  obtain ⟨hb2, hl2, hu2⟩ := h2
  refine ⟨hb2.trans hb1, hl1.trans hl2, ?_⟩
  rw [hb1] at hu2
  omega

theorem not_eos_lt {s : lex_state_t} (h : is_eos s = false) : s.pos < s.buffer.length := by
  simp [is_eos] at h
  exact h

theorem stepOk_succ (s : lex_state_t) (h : s.pos < s.buffer.length) :
    stepOk s { s with pos := s.pos + 1 } :=
  ⟨rfl, by show s.pos ≤ s.pos + 1; omega,
   by show s.pos + 1 ≤ max s.pos s.buffer.length; omega⟩

theorem skipWhile_stepOk (p : Char → Bool) (s : lex_state_t) : stepOk s (skipWhile p s).2 := by
  have h := skipWhileAux_le p (s.buffer.drop s.pos)
  simp only [List.length_drop] at h
  refine ⟨rfl, ?_, ?_⟩
  · show s.pos ≤ s.pos + skipWhileAux p (s.buffer.drop s.pos)
    omega
  · show s.pos + skipWhileAux p (s.buffer.drop s.pos) ≤ max s.pos s.buffer.length
    omega

theorem skipChr_stepOk (s : lex_state_t) (chr : Char) : stepOk s (skipChr s chr).2 := by
  unfold skipChr
  split
  · rename_i h
    simp only [Bool.and_eq_true, Bool.not_eq_true'] at h
    exact stepOk_succ s (not_eos_lt h.1)
  · exact stepOk_refl s

theorem skipDigit_stepOk (s : lex_state_t) : stepOk s (skipDigit s).2 := by
  unfold skipDigit
  split
  · rename_i h
    simp only [Bool.and_eq_true, Bool.not_eq_true'] at h
    exact stepOk_succ s (not_eos_lt h.1)
  · exact stepOk_refl s

theorem skipPlusmn_stepOk (s : lex_state_t) : stepOk s (skipPlusmn s).2 := by
  unfold skipPlusmn
  split
  · rename_i h
    simp only [Bool.and_eq_true, Bool.not_eq_true'] at h
    exact stepOk_succ s (not_eos_lt h.1)
  · exact stepOk_refl s

theorem skipSlashDot_stepOk (s : lex_state_t) : stepOk s (skipSlashDot s).2 := by
  unfold skipSlashDot
  split
  · rename_i h
    simp only [Bool.and_eq_true, Bool.not_eq_true'] at h
    exact stepOk_succ s (not_eos_lt h.1)
  · exact stepOk_refl s

theorem skipProgramMnemonic_stepOk (s : lex_state_t) : stepOk s (skipProgramMnemonic s).2 := by
  unfold skipProgramMnemonic
  dsimp only
  split
  · rename_i h
    simp only [Bool.and_eq_true, Bool.not_eq_true'] at h
    have hs : stepOk s (skipWhile (fun c => c_isalnum c || c == '_') { s with pos := s.pos + 1 }).2 :=
      stepOk_trans (stepOk_succ s (not_eos_lt h.1)) (skipWhile_stepOk _ _)
    split <;> exact hs
  · split <;> exact stepOk_refl s

theorem compoundLoop_stepOk : ∀ (fuel : Nat) (s : lex_state_t), stepOk s (compoundLoop fuel s).2 := by
  intro fuel
  induction fuel with
  | zero => intro s; exact stepOk_refl s
  | succ fuel ih =>
    intro s
    rw [compoundLoop]
    dsimp only
    have h1 : stepOk s (skipColon s).2 := skipChr_stepOk s ':'
    have h2 : stepOk s (skipProgramMnemonic (skipColon s).2).2 :=
      stepOk_trans h1 (skipProgramMnemonic_stepOk _)
    split
    · split
      · exact h2
      · split
        · exact h2
        · exact stepOk_trans h2 (ih _)
    · exact stepOk_refl s

theorem skipCommonProgramHeader_stepOk (s : lex_state_t) :
    stepOk s (skipCommonProgramHeader s).2 := by
  unfold skipCommonProgramHeader
  dsimp only
  have h2 : stepOk s (skipProgramMnemonic (skipStar s).2).2 :=
    stepOk_trans (skipChr_stepOk s '*') (skipProgramMnemonic_stepOk _)
  split
  · split
    · exact h2
    · split
      · exact h2
      · exact h2
  · exact stepOk_refl s

theorem skipCompoundProgramHeader_stepOk (s : lex_state_t) :
    stepOk s (skipCompoundProgramHeader s).2 := by
  unfold skipCompoundProgramHeader
  dsimp only
  have h2 : stepOk s (skipProgramMnemonic (skipColon s).2).2 :=
    stepOk_trans (skipChr_stepOk s ':') (skipProgramMnemonic_stepOk _)
  split
  · exact stepOk_trans h2 (compoundLoop_stepOk _ _)
  · split
    · exact h2
    · split
      · exact h2
      · exact h2

theorem skipMantissa_stepOk (s : lex_state_t) : stepOk s (skipMantissa s).2 := by
  unfold skipMantissa
  dsimp only
  have h1 : stepOk s (skipNumbers (skipPlusmn s).2).2 :=
    stepOk_trans (skipPlusmn_stepOk s) (skipWhile_stepOk _ _)
  split
  · exact stepOk_trans (stepOk_trans h1 (skipChr_stepOk _ '.')) (skipWhile_stepOk _ _)
  · exact h1

theorem skipExponent_stepOk (s : lex_state_t) : stepOk s (skipExponent s).2 := by
  unfold skipExponent
  split
  · rename_i h
    simp only [Bool.and_eq_true, Bool.not_eq_true'] at h
    exact stepOk_trans (stepOk_succ s (not_eos_lt h.1))
      (stepOk_trans (skipWhile_stepOk _ _)
        (stepOk_trans (skipPlusmn_stepOk _) (skipWhile_stepOk _ _)))
  · exact stepOk_refl s

theorem suffixLoop_stepOk : ∀ (fuel : Nat) (s : lex_state_t), stepOk s (suffixLoop fuel s) := by
  intro fuel
  induction fuel with
  | zero => intro s; exact stepOk_refl s
  | succ fuel ih =>
    intro s
    rw [suffixLoop]
    split
    · exact stepOk_trans
        (stepOk_trans (skipSlashDot_stepOk s)
          (stepOk_trans (skipWhile_stepOk _ _)
            (stepOk_trans (skipChr_stepOk _ '-') (skipDigit_stepOk _)))) (ih _)
    · exact stepOk_refl s

theorem readBlockLength_stepOk :
    ∀ (i acc : Nat) (s : lex_state_t), stepOk s (readBlockLength i acc s).2.2 := by
  intro i
  induction i with
  | zero => intro acc s; exact stepOk_refl s
  | succ i ih =>
    intro acc s
    rw [readBlockLength]
    split
    · rename_i h
      simp only [Bool.and_eq_true, Bool.not_eq_true'] at h
      exact stepOk_trans (stepOk_succ s (not_eos_lt h.1)) (ih _ _)
    · exact stepOk_refl s

theorem skipQuoteProgramData_stepOk (s : lex_state_t) (quote : Char) :
    stepOk s (skipQuoteProgramData s quote) := by
  have h := skipQuoteAux_le quote (s.buffer.drop s.pos)
  simp only [List.length_drop] at h
  refine ⟨rfl, ?_, ?_⟩
  · show s.pos ≤ s.pos + skipQuoteAux quote (s.buffer.drop s.pos)
    omega
  · show s.pos + skipQuoteAux quote (s.buffer.drop s.pos) ≤ max s.pos s.buffer.length
    omega

/-! ## Positioning the cursor via the remaining byte list -/

theorem pos_lt_of_drop {B : List Char} {p : Nat} {c : Char} {l : List Char}
    (h : B.drop p = c :: l) : p < B.length := by
  by_contra hn
  rw [List.drop_eq_nil_of_le (by omega)] at h
  cases h

theorem cur_of_drop {B : List Char} {p : Nat} {c : Char} {l : List Char}
    (h : B.drop p = c :: l) : cur ⟨B, p⟩ = c := by
  have h0 : B[p]? = some c := by
    have hd := List.getElem?_drop B p 0
    rw [h] at hd
    simpa using hd.symm
  show B.getD p (Char.ofNat 0) = c
  rw [List.getD_eq_getElem?_getD, h0]
  rfl

theorem drop_succ_of_drop {B : List Char} {p : Nat} {c : Char} {l : List Char}
    (h : B.drop p = c :: l) : B.drop (p + 1) = l := by
  have := List.tail_drop B p
  rw [h] at this
  exact this.symm

theorem is_eos_false_of_drop {B : List Char} {p : Nat} {c : Char} {l : List Char}
    (h : B.drop p = c :: l) : is_eos ⟨B, p⟩ = false := by
  have := pos_lt_of_drop h
  simp [is_eos]
  omega

theorem length_of_drop {B : List Char} {p : Nat} {l : List Char}
    (h : B.drop p = l) (hp : p ≤ B.length) : B.length = p + l.length := by
  have := List.length_drop p B
  rw [h] at this
  omega

/-! ## Characterizing single-byte skips -/

theorem skipChr_eq_one {s : lex_state_t} {c : Char} (h : (skipChr s c).1 = 1) :
    is_eos s = false ∧ cur s = c := by
  by_cases hg : (!is_eos s && ischr s c) = true
  · simp only [Bool.and_eq_true, Bool.not_eq_true'] at hg
    exact ⟨hg.1, by simpa [ischr] using hg.2⟩
  · exfalso
    unfold skipChr at h
    rw [if_neg hg] at h
    simp at h

theorem skipChr_of_guard {s : lex_state_t} {c : Char} (h1 : is_eos s = false) (h2 : cur s = c) :
    skipChr s c = (1, { s with pos := s.pos + 1 }) := by
  unfold skipChr
  rw [if_pos]
  simp [h1, ischr, h2]

theorem skipChr_not_one {s : lex_state_t} {c : Char} (h : ¬ (skipChr s c).1 = 1) :
    skipChr s c = (0, s) := by
  unfold skipChr at h ⊢
  split at h <;> simp_all

theorem skipChr_of_ne {s : lex_state_t} {c : Char} (h : cur s ≠ c) :
    skipChr s c = (0, s) := by
  unfold skipChr
  rw [if_neg]
  simp [ischr]
  intro
  exact h

theorem skipChr_of_eos {s : lex_state_t} (c : Char) (h : is_eos s = true) :
    skipChr s c = (0, s) := by
  unfold skipChr
  rw [if_neg]
  simp [h]

/-! ## The detectors respect the cursor bounds -/

theorem scpiLex_WhiteSpace_stepOk (s : lex_state_t) (t : scpi_token_t) :
    stepOk s (scpiLex_WhiteSpace s t).2.1 :=
  skipWhile_stepOk is_ws s

theorem scpiLex_CharacterProgramData_stepOk (s : lex_state_t) (t : scpi_token_t) :
    stepOk s (scpiLex_CharacterProgramData s t).2.1 := by
  unfold scpiLex_CharacterProgramData
  dsimp only
  split
  · rename_i h
    simp only [Bool.and_eq_true, Bool.not_eq_true'] at h
    exact stepOk_trans (stepOk_succ s (not_eos_lt h.1)) (skipWhile_stepOk _ _)
  · exact stepOk_refl s

theorem scpiLex_Comma_stepOk (s : lex_state_t) (t : scpi_token_t) :
    stepOk s (scpiLex_Comma s t).2.1 := by
  unfold scpiLex_Comma
  dsimp only
  split
  · exact skipChr_stepOk s ','
  · exact stepOk_refl s

theorem scpiLex_Semicolon_stepOk (s : lex_state_t) (t : scpi_token_t) :
    stepOk s (scpiLex_Semicolon s t).2.1 := by
  unfold scpiLex_Semicolon
  dsimp only
  split
  · exact skipChr_stepOk s ';'
  · exact stepOk_refl s

theorem scpiLex_Colon_stepOk (s : lex_state_t) (t : scpi_token_t) :
    stepOk s (scpiLex_Colon s t).2.1 := by
  unfold scpiLex_Colon
  dsimp only
  split
  · exact skipChr_stepOk s ':'
  · exact stepOk_refl s

theorem scpiLex_SpecificCharacter_stepOk (s : lex_state_t) (t : scpi_token_t) (chr : Char) :
    stepOk s (scpiLex_SpecificCharacter s t chr).2.1 := by
  unfold scpiLex_SpecificCharacter
  dsimp only
  split
  · exact skipChr_stepOk s chr
  · exact stepOk_refl s

theorem scpiLex_NewLine_stepOk (s : lex_state_t) (t : scpi_token_t) :
    stepOk s (scpiLex_NewLine s t).2.1 := by
  unfold scpiLex_NewLine
  dsimp only
  have h2 : stepOk s (skipChr (skipChr s '\r').2 '\n').2 :=
    stepOk_trans (skipChr_stepOk s '\r') (skipChr_stepOk _ '\n')
  split
  · exact h2
  · exact ⟨h2.1, le_refl _, le_max_left _ _⟩

theorem scpiLex_NondecimalNumericData_stepOk (s : lex_state_t) (t : scpi_token_t) :
    stepOk s (scpiLex_NondecimalNumericData s t).2.1 := by
  unfold scpiLex_NondecimalNumericData
  dsimp only
  have h1 := skipChr_stepOk s '#'
  repeat' split
  all_goals first
    | exact stepOk_refl s
    | exact h1
    | exact ⟨rfl, le_refl _, le_max_left _ _⟩
    | exact ⟨h1.1, le_refl _, le_max_left _ _⟩
    | (refine stepOk_trans (stepOk_trans h1 (stepOk_succ _ (not_eos_lt ?_))) (skipWhile_stepOk _ _)
       simp_all)

set_option maxHeartbeats 1000000 in
theorem scpiLex_ProgramHeaderClassify_stepOk (s : lex_state_t) :
    stepOk s (scpiLex_ProgramHeaderClassify s).2 := by
  unfold scpiLex_ProgramHeaderClassify
  dsimp only
  have hc := skipCommonProgramHeader_stepOk s
  have hcq := stepOk_trans hc (skipChr_stepOk (skipCommonProgramHeader s).2 '?')
  have hp := stepOk_trans hc (skipCompoundProgramHeader_stepOk (skipCommonProgramHeader s).2)
  have hpq := stepOk_trans hp
    (skipChr_stepOk (skipCompoundProgramHeader (skipCommonProgramHeader s).2).2 '?')
  split
  · split
    · exact hcq
    · exact hc
  · split
    · exact hc
    · split
      · split
        · exact hpq
        · exact hp
      · split
        · exact hp
        · exact hp

theorem scpiLex_ProgramHeader_stepOk (s : lex_state_t) (t : scpi_token_t) :
    stepOk s (scpiLex_ProgramHeader s t).2.1 := by
  unfold scpiLex_ProgramHeader
  dsimp only
  have h := scpiLex_ProgramHeaderClassify_stepOk s
  split
  · exact h
  · exact ⟨h.1, le_refl _, le_max_left _ _⟩

theorem scpiLex_DecimalNumericProgramData_stepOk (s : lex_state_t) (t : scpi_token_t) :
    stepOk s (scpiLex_DecimalNumericProgramData s t).2.1 := by
  unfold scpiLex_DecimalNumericProgramData
  dsimp only
  have hm := skipMantissa_stepOk s
  have hw := stepOk_trans hm (skipWhile_stepOk is_ws (skipMantissa s).2)
  have hE := stepOk_trans hw (skipExponent_stepOk _)
  split
  · split
    · exact ⟨hE.1, hm.2.1, hm.2.2⟩
    · exact hE
  · exact ⟨hm.1, le_refl _, le_max_left _ _⟩

set_option maxHeartbeats 1000000 in
theorem scpiLex_SuffixProgramData_stepOk (s : lex_state_t) (t : scpi_token_t) :
    stepOk s (scpiLex_SuffixProgramData s t).2.1 := by
  unfold scpiLex_SuffixProgramData
  dsimp only
  have h1 := skipChr_stepOk s '/'
  have h5 := stepOk_trans
    (stepOk_trans
      (stepOk_trans (stepOk_trans h1 (skipWhile_stepOk c_isalpha (skipChr s '/').2))
        (skipChr_stepOk _ '-'))
      (skipDigit_stepOk _))
    (suffixLoop_stepOk (s.buffer.length + 1) _)
  split
  · split
    · exact h5
    · exact ⟨h5.1, le_refl _, le_max_left _ _⟩
  · split
    · exact h1
    · exact ⟨h1.1, le_refl _, le_max_left _ _⟩

theorem skipDoubleQuoteProgramData_stepOk (s : lex_state_t) :
    stepOk s (skipDoubleQuoteProgramData s) := skipQuoteProgramData_stepOk s dquote

theorem skipSingleQuoteProgramData_stepOk (s : lex_state_t) :
    stepOk s (skipSingleQuoteProgramData s) := skipQuoteProgramData_stepOk s squote

set_option maxHeartbeats 2000000 in
theorem scpiLex_StringProgramData_stepOk (s : lex_state_t) (t : scpi_token_t) :
    stepOk s (scpiLex_StringProgramData s t).2.1 := by
  unfold scpiLex_StringProgramData
  dsimp only
  repeat' split
  all_goals first
    | exact stepOk_refl s
    | exact ⟨rfl, le_refl _, le_max_left _ _⟩
    | (refine stepOk_trans
        (stepOk_trans (stepOk_succ _ (not_eos_lt ?_)) (skipDoubleQuoteProgramData_stepOk _))
        (stepOk_succ _ (not_eos_lt ?_))
       all_goals simp_all)
    | (refine stepOk_trans
        (stepOk_trans (stepOk_succ _ (not_eos_lt ?_)) (skipSingleQuoteProgramData_stepOk _))
        (stepOk_succ _ (not_eos_lt ?_))
       all_goals simp_all)
    | (refine ⟨(stepOk_trans (stepOk_succ _ (not_eos_lt ?_)) (skipDoubleQuoteProgramData_stepOk _)).1,
        le_refl _, le_max_left _ _⟩
       simp_all)
    | (refine ⟨(stepOk_trans (stepOk_succ _ (not_eos_lt ?_)) (skipSingleQuoteProgramData_stepOk _)).1,
        le_refl _, le_max_left _ _⟩
       simp_all)
    | (refine stepOk_trans
        (stepOk_trans
          (stepOk_trans (stepOk_succ _ (not_eos_lt ?_)) (skipDoubleQuoteProgramData_stepOk _))
          (stepOk_succ _ (not_eos_lt ?_))) ?_
       · simp_all
       · simp_all
       · exact ⟨rfl, le_refl _, le_max_left _ _⟩)
    | (refine stepOk_trans
        (stepOk_trans
          (stepOk_trans (stepOk_succ _ (not_eos_lt ?_)) (skipSingleQuoteProgramData_stepOk _))
          (stepOk_succ _ (not_eos_lt ?_))) ?_
       · simp_all
       · simp_all
       · exact ⟨rfl, le_refl _, le_max_left _ _⟩)

theorem skipProgramExpression_stepOk0 (s : lex_state_t) :
    stepOk s (skipProgramExpression s) := skipWhile_stepOk isProgramExpression s

set_option maxHeartbeats 2000000 in
theorem scpiLex_ProgramExpression_stepOk (s : lex_state_t) (t : scpi_token_t) :
    stepOk s (scpiLex_ProgramExpression s t).2.1 := by
  unfold scpiLex_ProgramExpression
  dsimp only
  repeat' split
  all_goals first
    | exact stepOk_refl s
    | exact ⟨rfl, le_refl _, le_max_left _ _⟩
    | (refine stepOk_trans
        (stepOk_trans (stepOk_succ _ (not_eos_lt ?_)) (skipProgramExpression_stepOk0 _))
        (stepOk_succ _ (not_eos_lt ?_))
       all_goals simp_all)
    | (refine ⟨(stepOk_trans (stepOk_succ _ (not_eos_lt ?_)) (skipProgramExpression_stepOk0 _)).1,
        le_refl _, le_max_left _ _⟩
       simp_all
       done)
    | (exfalso
       simp_all
       done)

set_option maxHeartbeats 1000000 in
theorem scpiLex_ArbitraryBlockScan_props (s : lex_state_t) (t0 : scpi_token_t) :
    (scpiLex_ArbitraryBlockScan s t0).2.1.buffer = s.buffer ∧
    s.pos ≤ (scpiLex_ArbitraryBlockScan s t0).2.1.pos ∧
    ((scpiLex_ArbitraryBlockScan s t0).1 = 1 →
      (scpiLex_ArbitraryBlockScan s t0).2.1.pos ≤ s.buffer.length) ∧
    ((scpiLex_ArbitraryBlockScan s t0).1 ≠ 1 → (scpiLex_ArbitraryBlockScan s t0).2.2 = t0) := by
  unfold scpiLex_ArbitraryBlockScan
  dsimp only
  have h1 := skipChr_stepOk s '#'
  split
  · rename_i hsharp
    have hrd := readBlockLength_stepOk ((cur (skipChr s '#').2).toNat - 48) 0
      { (skipChr s '#').2 with pos := (skipChr s '#').2.pos + 1 }
    split
    · rename_i hguard
      have hlt : (skipChr s '#').2.pos < (skipChr s '#').2.buffer.length := by
        simp only [Bool.and_eq_true, Bool.not_eq_true'] at hguard
        exact not_eos_lt hguard.1
      have hchain := stepOk_trans (stepOk_trans h1 (stepOk_succ _ hlt)) hrd
      split
      · split
        · rename_i hbound
          refine ⟨hchain.1, le_trans hchain.2.1 (Nat.le_add_right _ _), fun _ => ?_,
            fun hne => absurd rfl hne⟩
          rw [← hchain.1]
          exact hbound
        · exact ⟨hchain.1, le_trans hchain.2.1 (Nat.le_add_right _ _),
            by intro h; omega, fun _ => rfl⟩
      · split
        · exact ⟨hchain.1, hchain.2.1, by intro h; omega, fun _ => rfl⟩
        · exact ⟨hchain.1, hchain.2.1, by intro h; omega, fun _ => rfl⟩
    · split
      · exact ⟨h1.1, h1.2.1, by intro h; omega, fun _ => rfl⟩
      · exact ⟨h1.1, h1.2.1, by intro h; omega, fun _ => rfl⟩
  · exact ⟨rfl, le_refl _, by intro h; omega, fun _ => rfl⟩

set_option maxHeartbeats 1000000 in
theorem scpiLex_ArbitraryBlockProgramData_stepOk (s : lex_state_t) (t : scpi_token_t)
    (hs : s.pos ≤ s.buffer.length) :
    stepOk s (scpiLex_ArbitraryBlockProgramData s t).2.1 := by
  unfold scpiLex_ArbitraryBlockProgramData
  dsimp only
  have h := scpiLex_ArbitraryBlockScan_props s { t with ptr := s.pos }
  split
  · rename_i h1
    exact ⟨h.1, h.2.1, le_trans (h.2.2.1 h1) (le_max_right _ _)⟩
  · split
    · refine ⟨h.1, ?_, ?_⟩
      · rw [h.1]
        exact hs
      · rw [h.1]
        exact le_max_right _ _
    · rename_i h1 _
      rw [h.2.2.2 h1]
      exact ⟨h.1, le_refl _, le_max_left _ _⟩

/-! ## Exact cursor-advance equations for the primitives -/

theorem skipWhile_pos (p : Char → Bool) (s : lex_state_t) :
    (skipWhile p s).2.pos = s.pos + (skipWhile p s).1 := rfl

theorem skipWhile_buffer (p : Char → Bool) (s : lex_state_t) :
    (skipWhile p s).2.buffer = s.buffer := rfl

theorem skipChr_pos (s : lex_state_t) (c : Char) :
    (skipChr s c).2.pos = s.pos + (skipChr s c).1 := by
  unfold skipChr
  split <;> rfl

theorem skipPlusmn_pos (s : lex_state_t) :
    (skipPlusmn s).2.pos = s.pos + (skipPlusmn s).1 := by
  unfold skipPlusmn
  split <;> rfl

theorem skipDigit_pos (s : lex_state_t) :
    (skipDigit s).2.pos = s.pos + (skipDigit s).1 := by
  unfold skipDigit
  split <;> rfl

/-- The mantissa scan advances the cursor at least as far as the number of
digits it reports. -/
theorem skipMantissa_advance (s : lex_state_t) :
    s.pos + (skipMantissa s).1 ≤ (skipMantissa s).2.pos := by
  unfold skipMantissa
  dsimp only
  have hpm := skipPlusmn_pos s
  have h1 : (skipNumbers (skipPlusmn s).2).2.pos
      = (skipPlusmn s).2.pos + (skipNumbers (skipPlusmn s).2).1 := rfl
  split
  · have hc := skipChr_pos (skipNumbers (skipPlusmn s).2).2 '.'
    have h2 : (skipNumbers (skipChr (skipNumbers (skipPlusmn s).2).2 '.').2).2.pos
        = (skipChr (skipNumbers (skipPlusmn s).2).2 '.').2.pos
          + (skipNumbers (skipChr (skipNumbers (skipPlusmn s).2).2 '.').2).1 := rfl
    dsimp only
    omega
  · omega

/-! ## No-match (token type unknown) leaves the cursor untouched -/

theorem scpiLex_WhiteSpace_unknown (s : lex_state_t) (t : scpi_token_t)
    (h : (scpiLex_WhiteSpace s t).2.2.type = SCPI_TOKEN_UNKNOWN) :
    (scpiLex_WhiteSpace s t).2.2.len = 0 ∧ (scpiLex_WhiteSpace s t).2.1.pos = s.pos := by
  unfold scpiLex_WhiteSpace at h ⊢
  have h1 : (skipWs s).2.pos = s.pos + (skipWs s).1 := rfl
  dsimp only at h ⊢
  split at h
  · simp at h
  · rename_i hlen
    constructor
    · omega
    · omega

theorem scpiLex_CharacterProgramData_unknown (s : lex_state_t) (t : scpi_token_t)
    (h : (scpiLex_CharacterProgramData s t).2.2.type = SCPI_TOKEN_UNKNOWN) :
    (scpiLex_CharacterProgramData s t).2.2.len = 0 ∧
      (scpiLex_CharacterProgramData s t).2.1.pos = s.pos := by
  unfold scpiLex_CharacterProgramData at h ⊢
  dsimp only at h ⊢
  by_cases hg : (!is_eos s && c_isalpha (cur s)) = true
  · rw [if_pos hg] at h ⊢
    have h1 : (skipWhile (fun c => c_isalnum c || c == '_') { s with pos := s.pos + 1 }).2.pos
        = s.pos + 1 + (skipWhile (fun c => c_isalnum c || c == '_') { s with pos := s.pos + 1 }).1 := rfl
    split at h
    · simp at h
    · rename_i hlen
      exfalso
      omega
  · rw [if_neg hg] at h ⊢
    split at h
    · simp at h
    · exact ⟨by omega, rfl⟩

theorem scpiLex_Comma_unknown (s : lex_state_t) (t : scpi_token_t)
    (h : (scpiLex_Comma s t).2.2.type = SCPI_TOKEN_UNKNOWN) :
    (scpiLex_Comma s t).2.2.len = 0 ∧ (scpiLex_Comma s t).2.1.pos = s.pos := by
  unfold scpiLex_Comma at h ⊢
  dsimp only at h ⊢
  split at h
  · simp at h
  · rename_i hneg
    rw [if_neg hneg]
    exact ⟨rfl, rfl⟩

theorem scpiLex_Semicolon_unknown (s : lex_state_t) (t : scpi_token_t)
    (h : (scpiLex_Semicolon s t).2.2.type = SCPI_TOKEN_UNKNOWN) :
    (scpiLex_Semicolon s t).2.2.len = 0 ∧ (scpiLex_Semicolon s t).2.1.pos = s.pos := by
  unfold scpiLex_Semicolon at h ⊢
  dsimp only at h ⊢
  split at h
  · simp at h
  · rename_i hneg
    rw [if_neg hneg]
    exact ⟨rfl, rfl⟩

theorem scpiLex_Colon_unknown (s : lex_state_t) (t : scpi_token_t)
    (h : (scpiLex_Colon s t).2.2.type = SCPI_TOKEN_UNKNOWN) :
    (scpiLex_Colon s t).2.2.len = 0 ∧ (scpiLex_Colon s t).2.1.pos = s.pos := by
  unfold scpiLex_Colon at h ⊢
  dsimp only at h ⊢
  split at h
  · simp at h
  · rename_i hneg
    rw [if_neg hneg]
    exact ⟨rfl, rfl⟩

theorem scpiLex_SpecificCharacter_unknown (s : lex_state_t) (t : scpi_token_t) (chr : Char)
    (h : (scpiLex_SpecificCharacter s t chr).2.2.type = SCPI_TOKEN_UNKNOWN) :
    (scpiLex_SpecificCharacter s t chr).2.2.len = 0 ∧
      (scpiLex_SpecificCharacter s t chr).2.1.pos = s.pos := by
  unfold scpiLex_SpecificCharacter at h ⊢
  dsimp only at h ⊢
  split at h
  · simp at h
  · rename_i hneg
    rw [if_neg hneg]
    exact ⟨rfl, rfl⟩

theorem scpiLex_NewLine_unknown (s : lex_state_t) (t : scpi_token_t)
    (h : (scpiLex_NewLine s t).2.2.type = SCPI_TOKEN_UNKNOWN) :
    (scpiLex_NewLine s t).2.2.len = 0 ∧ (scpiLex_NewLine s t).2.1.pos = s.pos := by
  unfold scpiLex_NewLine at h ⊢
  dsimp only at h ⊢
  split at h
  · simp at h
  · rename_i hneg
    rw [if_neg hneg]
    exact ⟨rfl, rfl⟩

theorem scpiLex_ProgramHeader_unknown (s : lex_state_t) (t : scpi_token_t)
    (h : (scpiLex_ProgramHeader s t).2.2.type = SCPI_TOKEN_UNKNOWN) :
    (scpiLex_ProgramHeader s t).2.2.len = 0 ∧ (scpiLex_ProgramHeader s t).2.1.pos = s.pos := by
  unfold scpiLex_ProgramHeader at h ⊢
  dsimp only at h ⊢
  split at h
  · rename_i hne
    exact absurd h hne
  · rename_i hne
    rw [if_neg hne]
    exact ⟨rfl, rfl⟩

theorem scpiLex_DecimalNumericProgramData_unknown (s : lex_state_t) (t : scpi_token_t)
    (h : (scpiLex_DecimalNumericProgramData s t).2.2.type = SCPI_TOKEN_UNKNOWN) :
    (scpiLex_DecimalNumericProgramData s t).2.2.len = 0 ∧
      (scpiLex_DecimalNumericProgramData s t).2.1.pos = s.pos := by
  unfold scpiLex_DecimalNumericProgramData at h ⊢
  dsimp only at h ⊢
  have hadv := skipMantissa_advance s
  have hws : (skipMantissa s).2.pos ≤ (skipWs (skipMantissa s).2).2.pos :=
    (skipWhile_stepOk is_ws (skipMantissa s).2).2.1
  have hE : (skipWs (skipMantissa s).2).2.pos
      ≤ (skipExponent (skipWs (skipMantissa s).2).2).2.pos :=
    (skipExponent_stepOk (skipWs (skipMantissa s).2).2).2.1
  by_cases hg : (skipMantissa s).1 ≠ 0
  · rw [if_pos hg] at h ⊢
    by_cases he : (skipExponent (skipWs (skipMantissa s).2).2).1 = 0
    · rw [if_pos he] at h ⊢
      split at h
      · simp at h
      · rename_i hlen
        exfalso
        dsimp only at hlen
        omega
    · rw [if_neg he] at h ⊢
      split at h
      · simp at h
      · rename_i hlen
        exfalso
        omega
  · rw [if_neg hg] at h ⊢
    split at h
    · rename_i hlen
      exfalso
      dsimp only at hlen
      omega
    · dsimp only
      exact ⟨by omega, rfl⟩

theorem scpiLex_SuffixProgramData_unknown (s : lex_state_t) (t : scpi_token_t)
    (h : (scpiLex_SuffixProgramData s t).2.2.type = SCPI_TOKEN_UNKNOWN) :
    (scpiLex_SuffixProgramData s t).2.2.len = 0 ∧
      (scpiLex_SuffixProgramData s t).2.1.pos = s.pos := by
  unfold scpiLex_SuffixProgramData at h ⊢
  dsimp only at h ⊢
  by_cases hg : (skipAlpha (skipChr s '/').2).1 ≠ 0
  · rw [if_pos hg] at h ⊢
    split at h
    · simp at h
    · rename_i hlen
      split
      · rename_i hlen2
        exact absurd hlen2 hlen
      · exact ⟨rfl, rfl⟩
  · rw [if_neg hg] at h ⊢
    split at h
    · simp at h
    · rename_i hlen
      split
      · rename_i hlen2
        exact absurd hlen2 hlen
      · exact ⟨rfl, rfl⟩

theorem scpiLex_ProgramExpression_unknown (s : lex_state_t) (t : scpi_token_t)
    (h : (scpiLex_ProgramExpression s t).2.2.type = SCPI_TOKEN_UNKNOWN) :
    (scpiLex_ProgramExpression s t).2.2.len = 0 ∧
      (scpiLex_ProgramExpression s t).2.1.pos = s.pos := by
  unfold scpiLex_ProgramExpression at h ⊢
  dsimp only at h ⊢
  by_cases c1 : (!is_eos s && ischr s '(') = true
  · rw [if_pos c1] at h ⊢
    by_cases c2 : (!is_eos (skipProgramExpression { s with pos := s.pos + 1 })
        && ischr (skipProgramExpression { s with pos := s.pos + 1 }) ')') = true
    · rw [if_pos c2] at h ⊢
      split at h
      · simp at h
      · rename_i hlen
        split
        · rename_i hlen2
          exact absurd hlen2 hlen
        · exact ⟨rfl, rfl⟩
    · rw [if_neg c2] at h ⊢
      split at h
      · simp at h
      · rename_i hlen
        split
        · rename_i hlen2
          exact absurd hlen2 hlen
        · exact ⟨rfl, rfl⟩
  · rw [if_neg c1] at h ⊢
    split at h
    · simp at h
    · rename_i hlen
      split
      · rename_i hlen2
        exact absurd hlen2 hlen
      · exact ⟨rfl, rfl⟩

theorem scpiLex_NondecimalNumericData_unknown (s : lex_state_t) (t : scpi_token_t)
    (h : (scpiLex_NondecimalNumericData s t).2.2.type = SCPI_TOKEN_UNKNOWN) :
    (scpiLex_NondecimalNumericData s t).2.2.len = 0 ∧
      (scpiLex_NondecimalNumericData s t).2.1.pos = s.pos := by
  unfold scpiLex_NondecimalNumericData at h ⊢
  dsimp only at h ⊢
  by_cases c1 : (skipChr s '#').1 = 1
  · rw [if_pos c1] at h ⊢
    by_cases c2 : (!is_eos (skipChr s '#').2) = true
    · rw [if_pos c2] at h ⊢
      by_cases c3 : isH (cur (skipChr s '#').2) = true
      · rw [if_pos c3] at h ⊢
        split at h
        · simp at h
        · rename_i hn
          split
          · rename_i hn2
            exact absurd hn2 hn
          · exact ⟨rfl, rfl⟩
      · rw [if_neg c3] at h ⊢
        by_cases c4 : isQ (cur (skipChr s '#').2) = true
        · rw [if_pos c4] at h ⊢
          split at h
          · simp at h
          · rename_i hn
            split
            · rename_i hn2
              exact absurd hn2 hn
            · exact ⟨rfl, rfl⟩
        · rw [if_neg c4] at h ⊢
          by_cases c5 : isB (cur (skipChr s '#').2) = true
          · rw [if_pos c5] at h ⊢
            split at h
            · simp at h
            · rename_i hn
              split
              · rename_i hn2
                exact absurd hn2 hn
              · exact ⟨rfl, rfl⟩
          · rw [if_neg c5] at h ⊢
            split at h
            · rename_i hn
              exact absurd rfl hn
            · exact ⟨rfl, rfl⟩
    · rw [if_neg c2] at h ⊢
      split at h
      · rename_i hn
        exact absurd rfl hn
      · exact ⟨rfl, rfl⟩
  · rw [if_neg c1] at h ⊢
    split at h
    · rename_i hn
      exact absurd rfl hn
    · exact ⟨rfl, rfl⟩

theorem scpiLex_StringProgramData_unknown (s : lex_state_t) (t : scpi_token_t)
    (h : (scpiLex_StringProgramData s t).2.2.type = SCPI_TOKEN_UNKNOWN) :
    (scpiLex_StringProgramData s t).2.2.len = 0 ∧
      (scpiLex_StringProgramData s t).2.1.pos = s.pos := by
  unfold scpiLex_StringProgramData at h ⊢
  dsimp only at h ⊢
  by_cases c1 : (!is_eos s) = true
  · rw [if_pos c1] at h ⊢
    by_cases c2 : ischr s dquote = true
    · rw [if_pos c2] at h ⊢
      by_cases c3 : (!is_eos (skipDoubleQuoteProgramData { s with pos := s.pos + 1 })
          && ischr (skipDoubleQuoteProgramData { s with pos := s.pos + 1 }) dquote) = true
      · rw [if_pos c3] at h ⊢
        split at h
        · simp at h
        · rename_i hlen
          split
          · rename_i hlen2
            exact absurd hlen2 hlen
          · exact ⟨rfl, rfl⟩
      · rw [if_neg c3] at h ⊢
        split at h
        · simp at h
        · rename_i hlen
          split
          · rename_i hlen2
            exact absurd hlen2 hlen
          · exact ⟨rfl, rfl⟩
    · rw [if_neg c2] at h ⊢
      by_cases c2b : ischr s squote = true
      · rw [if_pos c2b] at h ⊢
        by_cases c3 : (!is_eos (skipSingleQuoteProgramData { s with pos := s.pos + 1 })
            && ischr (skipSingleQuoteProgramData { s with pos := s.pos + 1 }) squote) = true
        · rw [if_pos c3] at h ⊢
          split at h
          · simp at h
          · rename_i hlen
            split
            · rename_i hlen2
              exact absurd hlen2 hlen
            · exact ⟨rfl, rfl⟩
        · rw [if_neg c3] at h ⊢
          split at h
          · simp at h
          · rename_i hlen
            split
            · rename_i hlen2
              exact absurd hlen2 hlen
            · exact ⟨rfl, rfl⟩
      · rw [if_neg c2b] at h ⊢
        split at h
        · rename_i hlen
          exfalso
          dsimp only at hlen
          omega
        · rename_i hlen
          split
          · rename_i hlen2
            exact absurd hlen2 hlen
          · exact ⟨rfl, rfl⟩
  · rw [if_neg c1] at h ⊢
    split at h
    · rename_i hlen
      exfalso
      dsimp only at hlen
      omega
    · rename_i hlen
      split
      · rename_i hlen2
        exact absurd hlen2 hlen
      · exact ⟨rfl, rfl⟩

theorem scpiLex_ArbitraryBlockProgramData_unknown (s : lex_state_t) (t : scpi_token_t)
    (h : (scpiLex_ArbitraryBlockProgramData s t).2.2.type = SCPI_TOKEN_UNKNOWN) :
    (scpiLex_ArbitraryBlockProgramData s t).2.2.len = 0 ∧
      ((scpiLex_ArbitraryBlockProgramData s t).2.1.pos = s.pos ∨
        (scpiLex_ArbitraryBlockProgramData s t).2.1.pos = s.buffer.length) := by
  unfold scpiLex_ArbitraryBlockProgramData at h ⊢
  dsimp only at h ⊢
  have hp := scpiLex_ArbitraryBlockScan_props s { t with ptr := s.pos }
  split at h
  · simp at h
  · rename_i h1
    split at h
    · rename_i h0
      rw [if_neg h1, if_pos h0]
      refine ⟨rfl, Or.inr ?_⟩
      dsimp only
      rw [hp.1]
    · rename_i h0
      rw [if_neg h1, if_neg h0]
      refine ⟨rfl, Or.inl ?_⟩
      dsimp only
      rw [hp.2.2.2 h1]

/-! ## Claims -/

theorem cursorOk_of_stepOk {s s' : lex_state_t} (h : stepOk s s')
    (hs : s.pos ≤ s.buffer.length) : s.pos ≤ s'.pos ∧ s'.pos ≤ s.buffer.length := by
  refine ⟨h.2.1, ?_⟩
  have := h.2.2
  omega

/-- C1 (counterexample): `scpiLex_ArbitraryBlockProgramData` on the buffer
consisting of the single byte `#` classifies the token as unknown with an
empty byte-range, yet moves the cursor from 0 to 1 (end-of-buffer): an
unknown classification is not always side-effect-free on the cursor. -/
theorem C1_counterexample_unknown_moves_cursor :
    (scpiLex_ArbitraryBlockProgramData (stateOf "#") token0).2.2.type = SCPI_TOKEN_UNKNOWN ∧
    (scpiLex_ArbitraryBlockProgramData (stateOf "#") token0).2.2.len = 0 ∧
    (stateOf "#").pos = 0 ∧
    (scpiLex_ArbitraryBlockProgramData (stateOf "#") token0).2.1.pos = 1 :=
  ⟨rfl, rfl, rfl, rfl⟩

/-- C1 (amended): for every detector except the arbitrary-block detector, a
call that classifies the token as unknown leaves the byte-range empty
(`len = 0`) and the cursor exactly where it started; the arbitrary-block
detector also classifies its incomplete outcome as unknown, where the
byte-range is empty but the cursor is either restored or placed at
end-of-buffer. -/
theorem C1_unknown_token_cursor (s : lex_state_t) (t : scpi_token_t) (chr : Char) :
    ((scpiLex_WhiteSpace s t).2.2.type = SCPI_TOKEN_UNKNOWN →
      (scpiLex_WhiteSpace s t).2.2.len = 0 ∧ (scpiLex_WhiteSpace s t).2.1.pos = s.pos) ∧
    ((scpiLex_ProgramHeader s t).2.2.type = SCPI_TOKEN_UNKNOWN →
      (scpiLex_ProgramHeader s t).2.2.len = 0 ∧ (scpiLex_ProgramHeader s t).2.1.pos = s.pos) ∧
    ((scpiLex_CharacterProgramData s t).2.2.type = SCPI_TOKEN_UNKNOWN →
      (scpiLex_CharacterProgramData s t).2.2.len = 0 ∧
        (scpiLex_CharacterProgramData s t).2.1.pos = s.pos) ∧
    ((scpiLex_DecimalNumericProgramData s t).2.2.type = SCPI_TOKEN_UNKNOWN →
      (scpiLex_DecimalNumericProgramData s t).2.2.len = 0 ∧
        (scpiLex_DecimalNumericProgramData s t).2.1.pos = s.pos) ∧
    ((scpiLex_SuffixProgramData s t).2.2.type = SCPI_TOKEN_UNKNOWN →
      (scpiLex_SuffixProgramData s t).2.2.len = 0 ∧
        (scpiLex_SuffixProgramData s t).2.1.pos = s.pos) ∧
    ((scpiLex_NondecimalNumericData s t).2.2.type = SCPI_TOKEN_UNKNOWN →
      (scpiLex_NondecimalNumericData s t).2.2.len = 0 ∧
        (scpiLex_NondecimalNumericData s t).2.1.pos = s.pos) ∧
    ((scpiLex_StringProgramData s t).2.2.type = SCPI_TOKEN_UNKNOWN →
      (scpiLex_StringProgramData s t).2.2.len = 0 ∧
        (scpiLex_StringProgramData s t).2.1.pos = s.pos) ∧
    ((scpiLex_ProgramExpression s t).2.2.type = SCPI_TOKEN_UNKNOWN →
      (scpiLex_ProgramExpression s t).2.2.len = 0 ∧
        (scpiLex_ProgramExpression s t).2.1.pos = s.pos) ∧
    ((scpiLex_Comma s t).2.2.type = SCPI_TOKEN_UNKNOWN →
      (scpiLex_Comma s t).2.2.len = 0 ∧ (scpiLex_Comma s t).2.1.pos = s.pos) ∧
    ((scpiLex_Semicolon s t).2.2.type = SCPI_TOKEN_UNKNOWN →
      (scpiLex_Semicolon s t).2.2.len = 0 ∧ (scpiLex_Semicolon s t).2.1.pos = s.pos) ∧
    ((scpiLex_Colon s t).2.2.type = SCPI_TOKEN_UNKNOWN →
      (scpiLex_Colon s t).2.2.len = 0 ∧ (scpiLex_Colon s t).2.1.pos = s.pos) ∧
    ((scpiLex_SpecificCharacter s t chr).2.2.type = SCPI_TOKEN_UNKNOWN →
      (scpiLex_SpecificCharacter s t chr).2.2.len = 0 ∧
        (scpiLex_SpecificCharacter s t chr).2.1.pos = s.pos) ∧
    ((scpiLex_NewLine s t).2.2.type = SCPI_TOKEN_UNKNOWN →
      (scpiLex_NewLine s t).2.2.len = 0 ∧ (scpiLex_NewLine s t).2.1.pos = s.pos) ∧
    ((scpiLex_ArbitraryBlockProgramData s t).2.2.type = SCPI_TOKEN_UNKNOWN →
      (scpiLex_ArbitraryBlockProgramData s t).2.2.len = 0 ∧
        ((scpiLex_ArbitraryBlockProgramData s t).2.1.pos = s.pos ∨
          (scpiLex_ArbitraryBlockProgramData s t).2.1.pos = s.buffer.length)) :=
  ⟨scpiLex_WhiteSpace_unknown s t,
   scpiLex_ProgramHeader_unknown s t,
   scpiLex_CharacterProgramData_unknown s t,
   scpiLex_DecimalNumericProgramData_unknown s t,
   scpiLex_SuffixProgramData_unknown s t,
   scpiLex_NondecimalNumericData_unknown s t,
   scpiLex_StringProgramData_unknown s t,
   scpiLex_ProgramExpression_unknown s t,
   scpiLex_Comma_unknown s t,
   scpiLex_Semicolon_unknown s t,
   scpiLex_Colon_unknown s t,
   scpiLex_SpecificCharacter_unknown s t chr,
   scpiLex_NewLine_unknown s t,
   scpiLex_ArbitraryBlockProgramData_unknown s t⟩

/-- C1 witness: the amended claim applied at concrete inputs (a String
detector miss on `x`, and the arbitrary-block incomplete outcome on
`#15HEL` whose unknown token leaves the cursor at end-of-buffer). -/
theorem C1_unknown_token_cursor_witness :
    ((scpiLex_StringProgramData (stateOf "x") token0).2.2.len = 0 ∧
      (scpiLex_StringProgramData (stateOf "x") token0).2.1.pos = (stateOf "x").pos) ∧
    ((scpiLex_ArbitraryBlockProgramData (stateOf "#15HEL") token0).2.2.len = 0 ∧
      ((scpiLex_ArbitraryBlockProgramData (stateOf "#15HEL") token0).2.1.pos = (stateOf "#15HEL").pos ∨
        (scpiLex_ArbitraryBlockProgramData (stateOf "#15HEL") token0).2.1.pos
          = (stateOf "#15HEL").buffer.length)) :=
  ⟨(C1_unknown_token_cursor (stateOf "x") token0 'a').2.2.2.2.2.2.1 (by decide),
   (C1_unknown_token_cursor (stateOf "#15HEL") token0 'a').2.2.2.2.2.2.2.2.2.2.2.2.2 (by decide)⟩

/-- C9: starting from any cursor within bounds, every detector leaves the
cursor at or after its starting position and never past the buffer end —
including the arbitrary-block detector, which adds the declared block
length to the cursor before bounds-checking. -/
theorem C9_cursor_stays_in_bounds (s : lex_state_t) (t : scpi_token_t) (chr : Char)
    (hs : s.pos ≤ s.buffer.length) :
    (s.pos ≤ (scpiLex_ArbitraryBlockProgramData s t).2.1.pos ∧
      (scpiLex_ArbitraryBlockProgramData s t).2.1.pos ≤ s.buffer.length) ∧
    (s.pos ≤ (scpiLex_WhiteSpace s t).2.1.pos ∧
      (scpiLex_WhiteSpace s t).2.1.pos ≤ s.buffer.length) ∧
    (s.pos ≤ (scpiLex_ProgramHeader s t).2.1.pos ∧
      (scpiLex_ProgramHeader s t).2.1.pos ≤ s.buffer.length) ∧
    (s.pos ≤ (scpiLex_CharacterProgramData s t).2.1.pos ∧
      (scpiLex_CharacterProgramData s t).2.1.pos ≤ s.buffer.length) ∧
    (s.pos ≤ (scpiLex_DecimalNumericProgramData s t).2.1.pos ∧
      (scpiLex_DecimalNumericProgramData s t).2.1.pos ≤ s.buffer.length) ∧
    (s.pos ≤ (scpiLex_SuffixProgramData s t).2.1.pos ∧
      (scpiLex_SuffixProgramData s t).2.1.pos ≤ s.buffer.length) ∧
    (s.pos ≤ (scpiLex_NondecimalNumericData s t).2.1.pos ∧
      (scpiLex_NondecimalNumericData s t).2.1.pos ≤ s.buffer.length) ∧
    (s.pos ≤ (scpiLex_StringProgramData s t).2.1.pos ∧
      (scpiLex_StringProgramData s t).2.1.pos ≤ s.buffer.length) ∧
    (s.pos ≤ (scpiLex_ProgramExpression s t).2.1.pos ∧
      (scpiLex_ProgramExpression s t).2.1.pos ≤ s.buffer.length) ∧
    (s.pos ≤ (scpiLex_Comma s t).2.1.pos ∧
      (scpiLex_Comma s t).2.1.pos ≤ s.buffer.length) ∧
    (s.pos ≤ (scpiLex_Semicolon s t).2.1.pos ∧
      (scpiLex_Semicolon s t).2.1.pos ≤ s.buffer.length) ∧
    (s.pos ≤ (scpiLex_Colon s t).2.1.pos ∧
      (scpiLex_Colon s t).2.1.pos ≤ s.buffer.length) ∧
    (s.pos ≤ (scpiLex_SpecificCharacter s t chr).2.1.pos ∧
      (scpiLex_SpecificCharacter s t chr).2.1.pos ≤ s.buffer.length) ∧
    (s.pos ≤ (scpiLex_NewLine s t).2.1.pos ∧
      (scpiLex_NewLine s t).2.1.pos ≤ s.buffer.length) :=
  ⟨cursorOk_of_stepOk (scpiLex_ArbitraryBlockProgramData_stepOk s t hs) hs,
   cursorOk_of_stepOk (scpiLex_WhiteSpace_stepOk s t) hs,
   cursorOk_of_stepOk (scpiLex_ProgramHeader_stepOk s t) hs,
   cursorOk_of_stepOk (scpiLex_CharacterProgramData_stepOk s t) hs,
   cursorOk_of_stepOk (scpiLex_DecimalNumericProgramData_stepOk s t) hs,
   cursorOk_of_stepOk (scpiLex_SuffixProgramData_stepOk s t) hs,
   cursorOk_of_stepOk (scpiLex_NondecimalNumericData_stepOk s t) hs,
   cursorOk_of_stepOk (scpiLex_StringProgramData_stepOk s t) hs,
   cursorOk_of_stepOk (scpiLex_ProgramExpression_stepOk s t) hs,
   cursorOk_of_stepOk (scpiLex_Comma_stepOk s t) hs,
   cursorOk_of_stepOk (scpiLex_Semicolon_stepOk s t) hs,
   cursorOk_of_stepOk (scpiLex_Colon_stepOk s t) hs,
   cursorOk_of_stepOk (scpiLex_SpecificCharacter_stepOk s t chr) hs,
   cursorOk_of_stepOk (scpiLex_NewLine_stepOk s t) hs⟩

/-- C9 witness: the bounds claim applied to the arbitrary-block detector on
the truncated block `#15HEL` (whose incomplete outcome forces the cursor to
end-of-buffer). -/
theorem C9_cursor_stays_in_bounds_witness :
    (stateOf "#15HEL").pos
        ≤ (scpiLex_ArbitraryBlockProgramData (stateOf "#15HEL") token0).2.1.pos ∧
      (scpiLex_ArbitraryBlockProgramData (stateOf "#15HEL") token0).2.1.pos
        ≤ (stateOf "#15HEL").buffer.length :=
  (C9_cursor_stays_in_bounds (stateOf "#15HEL") token0 'a' (by decide)).1

/-- A maximal-run loop consumes nothing when the buffer is exhausted or the
byte at the cursor fails the predicate. -/
theorem skipWhileAux_zero {p : Char → Bool} {s : lex_state_t}
    (h : is_eos s = true ∨ p (cur s) = false) :
    skipWhileAux p (s.buffer.drop s.pos) = 0 := by
  by_cases he : s.buffer.length ≤ s.pos
  · rw [List.drop_eq_nil_of_le he]
    rfl
  · push_neg at he
    rcases h with h | h
    · simp [is_eos] at h
      omega
    · rw [List.drop_eq_getElem_cons he]
      have hc : s.buffer[s.pos] = cur s := (List.getD_eq_getElem _ _ he).symm
      simp [skipWhileAux, hc, h]

/-- C10: when the byte at the cursor is not `(` (or the buffer is already
exhausted), `scpiLex_ProgramExpression` never assigns `token->len` before
testing `token->len > 0`: with a positive caller-supplied `len` it reports a
program-expression match of that stale length with the cursor unchanged,
and it guarantees the no-match result (unknown, length 0, cursor unchanged)
exactly when the incoming `len` is not positive. -/
theorem C10_ProgramExpression_stale_len (s : lex_state_t) (t : scpi_token_t)
    (h : is_eos s = true ∨ ischr s '(' = false) :
    (t.len > 0 →
      (scpiLex_ProgramExpression s t).1 = t.len ∧
      (scpiLex_ProgramExpression s t).2.2.type = SCPI_TOKEN_PROGRAM_EXPRESSION ∧
      (scpiLex_ProgramExpression s t).2.2.len = t.len ∧
      (scpiLex_ProgramExpression s t).2.1.pos = s.pos) ∧
    (¬ t.len > 0 →
      (scpiLex_ProgramExpression s t).1 = 0 ∧
      (scpiLex_ProgramExpression s t).2.2.type = SCPI_TOKEN_UNKNOWN ∧
      (scpiLex_ProgramExpression s t).2.2.len = 0 ∧
      (scpiLex_ProgramExpression s t).2.1.pos = s.pos) := by
  unfold scpiLex_ProgramExpression
  dsimp only
  have hc1 : ¬((!is_eos s && ischr s '(') = true) := by
    rcases h with h | h <;> simp [h]
  rw [if_neg hc1]
  constructor
  · intro hl
    rw [if_pos hl]
    exact ⟨rfl, rfl, rfl, rfl⟩
  · intro hl
    rw [if_neg hl]
    exact ⟨rfl, rfl, rfl, rfl⟩

/-- C10 witness: on buffer `x` with a stale caller token of length 5, the
detector returns 5 and classifies a program expression without moving the
cursor. -/
theorem C10_ProgramExpression_stale_len_witness :
    (scpiLex_ProgramExpression (stateOf "x") ⟨0, 5, SCPI_TOKEN_UNKNOWN⟩).1 = 5 ∧
    (scpiLex_ProgramExpression (stateOf "x") ⟨0, 5, SCPI_TOKEN_UNKNOWN⟩).2.2.type
      = SCPI_TOKEN_PROGRAM_EXPRESSION ∧
    (scpiLex_ProgramExpression (stateOf "x") ⟨0, 5, SCPI_TOKEN_UNKNOWN⟩).2.2.len = 5 ∧
    (scpiLex_ProgramExpression (stateOf "x") ⟨0, 5, SCPI_TOKEN_UNKNOWN⟩).2.1.pos
      = (stateOf "x").pos :=
  (C10_ProgramExpression_stale_len (stateOf "x") ⟨0, 5, SCPI_TOKEN_UNKNOWN⟩
    (Or.inr (by decide))).1 (by decide)

/-- C7 (counterexample): on input `/1` the cursor byte is `/` (no leading
letters anywhere), yet `scpiLex_SuffixProgramData` reports a suffix token of
length 1 with the cursor advanced — not a non-match with kind unknown. -/
theorem C7_counterexample_lone_slash :
    cur (stateOf "/1") = '/' ∧
    c_isalpha (cur (stateOf "/1")) = false ∧
    c_isalpha (cur ⟨(stateOf "/1").buffer, 1⟩) = false ∧
    (scpiLex_SuffixProgramData (stateOf "/1") token0).2.2.type = SCPI_TOKEN_SUFFIX_PROGRAM_DATA ∧
    (scpiLex_SuffixProgramData (stateOf "/1") token0).2.2.len = 1 ∧
    (scpiLex_SuffixProgramData (stateOf "/1") token0).2.1.pos = 1 := by
  decide

/-- C7 (amended): `scpiLex_SuffixProgramData` reports a non-match (token
kind unknown, length 0, cursor restored) exactly when it consumes nothing:
when the buffer is exhausted or the byte at the cursor is neither `/` nor a
letter.  An input beginning with `/` is always matched as suffix data of
length at least 1 even when no letters follow (the source's lax parsing,
cf. its strict-parsing TODO). -/
theorem C7_suffix_nonmatch_iff_nothing_consumed (s : lex_state_t) (t : scpi_token_t) :
    ((is_eos s = true ∨ (ischr s '/' = false ∧ c_isalpha (cur s) = false)) →
      (scpiLex_SuffixProgramData s t).1 = 0 ∧
      (scpiLex_SuffixProgramData s t).2.2.type = SCPI_TOKEN_UNKNOWN ∧
      (scpiLex_SuffixProgramData s t).2.2.len = 0 ∧
      (scpiLex_SuffixProgramData s t).2.1.pos = s.pos) ∧
    ((is_eos s = false ∧ ischr s '/' = true) →
      (scpiLex_SuffixProgramData s t).2.2.type = SCPI_TOKEN_SUFFIX_PROGRAM_DATA ∧
      (scpiLex_SuffixProgramData s t).2.2.len ≥ 1 ∧
      (scpiLex_SuffixProgramData s t).1 ≥ 1) := by
  constructor
  · intro h
    unfold scpiLex_SuffixProgramData
    dsimp only
    have hchr : skipChr s '/' = (0, s) := by
      rcases h with h | h
      · exact skipChr_of_eos '/' h
      · refine skipChr_not_one ?_
        intro hone
        have := (skipChr_eq_one hone).2
        simp [ischr, this] at h
    rw [hchr]
    dsimp only
    have halpha : (skipAlpha s).1 = 0 := by
      refine skipWhileAux_zero ?_
      rcases h with h | h
      · exact Or.inl h
      · exact Or.inr h.2
    have hno : ¬((skipAlpha s).1 ≠ 0) := by omega
    rw [if_neg hno]
    split
    · rename_i hlen
      exfalso
      omega
    · exact ⟨rfl, rfl, rfl, rfl⟩
  · intro h
    unfold scpiLex_SuffixProgramData
    dsimp only
    have hchr : skipChr s '/' = (1, { s with pos := s.pos + 1 }) := by
      refine skipChr_of_guard h.1 ?_
      have := h.2
      simp [ischr] at this
      exact this
    rw [hchr]
    dsimp only
    split
    · have hs5 : ({ s with pos := s.pos + 1 } : lex_state_t).pos ≤
          (suffixLoop (s.buffer.length + 1)
            (skipDigit (skipChr (skipAlpha { s with pos := s.pos + 1 }).2 '-').2).2).pos :=
        (stepOk_trans (stepOk_trans (stepOk_trans
          (skipWhile_stepOk c_isalpha { s with pos := s.pos + 1 })
          (skipChr_stepOk _ '-')) (skipDigit_stepOk _))
          (suffixLoop_stepOk (s.buffer.length + 1) _)).2.1
      dsimp only at hs5
      split
      · refine ⟨rfl, ?_, ?_⟩
        · first
          | (dsimp only; omega)
          | omega
        · first
          | (dsimp only; omega)
          | omega
      · rename_i hlen
        exfalso
        first
        | (dsimp only at hlen; omega)
        | omega
    · split
      · refine ⟨rfl, ?_, ?_⟩
        · first
          | (dsimp only; omega)
          | omega
        · first
          | (dsimp only; omega)
          | omega
      · rename_i hlen
        exfalso
        first
        | (dsimp only at hlen; omega)
        | omega

/-- C7 witness: the amended claim applied to `9` (no slash, no letter:
non-match with cursor restored) and to `/1` (leading slash: matched). -/
theorem C7_suffix_nonmatch_witness :
    ((scpiLex_SuffixProgramData (stateOf "9") token0).1 = 0 ∧
      (scpiLex_SuffixProgramData (stateOf "9") token0).2.2.type = SCPI_TOKEN_UNKNOWN ∧
      (scpiLex_SuffixProgramData (stateOf "9") token0).2.2.len = 0 ∧
      (scpiLex_SuffixProgramData (stateOf "9") token0).2.1.pos = (stateOf "9").pos) ∧
    ((scpiLex_SuffixProgramData (stateOf "/1") token0).2.2.type
        = SCPI_TOKEN_SUFFIX_PROGRAM_DATA ∧
      (scpiLex_SuffixProgramData (stateOf "/1") token0).2.2.len ≥ 1 ∧
      (scpiLex_SuffixProgramData (stateOf "/1") token0).1 ≥ 1) :=
  ⟨(C7_suffix_nonmatch_iff_nothing_consumed (stateOf "9") token0).1 (Or.inr (by decide)),
   (C7_suffix_nonmatch_iff_nothing_consumed (stateOf "/1") token0).2 (by decide)⟩

/-- C4: when the mantissa matches (at least one digit) and the exponent
attempt fails (no exponent digits), the decimal detector leaves the cursor
immediately after the mantissa, discarding whitespace speculatively
consumed while probing for the exponent; `1.5E` at end-of-buffer spans
exactly `1.5`, and `1.5E-3` is one full-span token. -/
theorem C4_decimal_exponent_rollback (s : lex_state_t) (t : scpi_token_t) :
    ((skipMantissa s).1 ≠ 0 →
      (skipExponent (skipWs (skipMantissa s).2).2).1 = 0 →
      (scpiLex_DecimalNumericProgramData s t).2.1.pos = (skipMantissa s).2.pos ∧
      (scpiLex_DecimalNumericProgramData s t).2.2.type
        = SCPI_TOKEN_DECIMAL_NUMERIC_PROGRAM_DATA ∧
      (scpiLex_DecimalNumericProgramData s t).2.2.ptr = s.pos ∧
      (scpiLex_DecimalNumericProgramData s t).2.2.len
        = (((skipMantissa s).2.pos - s.pos : Nat) : Int)) ∧
    ((scpiLex_DecimalNumericProgramData (stateOf "1.5E") token0).2.2.type
        = SCPI_TOKEN_DECIMAL_NUMERIC_PROGRAM_DATA ∧
      (scpiLex_DecimalNumericProgramData (stateOf "1.5E") token0).2.2.len = 3 ∧
      (scpiLex_DecimalNumericProgramData (stateOf "1.5E") token0).2.1.pos = 3 ∧
      tokSlice (stateOf "1.5E").buffer 0 3 = "1.5".toList) ∧
    ((scpiLex_DecimalNumericProgramData (stateOf "1.5E-3") token0).2.2.type
        = SCPI_TOKEN_DECIMAL_NUMERIC_PROGRAM_DATA ∧
      (scpiLex_DecimalNumericProgramData (stateOf "1.5E-3") token0).2.2.len = 6 ∧
      (scpiLex_DecimalNumericProgramData (stateOf "1.5E-3") token0).2.1.pos = 6) := by
  refine ⟨?_, by decide, by decide⟩
  intro hm he
  have hadv := skipMantissa_advance s
  unfold scpiLex_DecimalNumericProgramData
  dsimp only
  rw [if_pos hm, if_pos he]
  split
  · exact ⟨rfl, rfl, rfl, rfl⟩
  · rename_i hlen
    exfalso
    dsimp only at hlen
    omega

/-- C4 witness: the rollback conclusion instantiated on the concrete input
`1.5E` (mantissa of three bytes, exponent attempt with no digits). -/
theorem C4_decimal_exponent_rollback_witness :
    (scpiLex_DecimalNumericProgramData (stateOf "1.5E") token0).2.1.pos
        = (skipMantissa (stateOf "1.5E")).2.pos ∧
      (scpiLex_DecimalNumericProgramData (stateOf "1.5E") token0).2.2.type
        = SCPI_TOKEN_DECIMAL_NUMERIC_PROGRAM_DATA ∧
      (scpiLex_DecimalNumericProgramData (stateOf "1.5E") token0).2.2.ptr
        = (stateOf "1.5E").pos ∧
      (scpiLex_DecimalNumericProgramData (stateOf "1.5E") token0).2.2.len
        = (((skipMantissa (stateOf "1.5E")).2.pos - (stateOf "1.5E").pos : Nat) : Int) :=
  (C4_decimal_exponent_rollback (stateOf "1.5E") token0).1 (by decide) (by decide)

/-- C5: in the string-body scan, a quote immediately followed by the same
quote consumes both and continues; an undoubled quote closes the body (the
tentatively consumed quote is put back); `"aa""bb"` lexes as one
double-quoted token spanning both outer quotes with the doubled quotes
preserved in the content, and unterminated `"abc` is a non-match with the
cursor restored to the opening quote. -/
theorem C5_string_quote_doubling (quote c2 : Char) (cs : List Char) :
    (skipQuoteAux quote (quote :: quote :: cs) = skipQuoteAux quote cs + 2) ∧
    (¬ c2 = quote → skipQuoteAux quote (quote :: c2 :: cs) = 0) ∧
    (skipQuoteAux quote [quote] = 0) ∧
    ((scpiLex_StringProgramData (stateOf "\"aa\"\"bb\"") token0).2.2.type
        = SCPI_TOKEN_DOUBLE_QUOTE_PROGRAM_DATA ∧
      (scpiLex_StringProgramData (stateOf "\"aa\"\"bb\"") token0).2.2.ptr = 0 ∧
      (scpiLex_StringProgramData (stateOf "\"aa\"\"bb\"") token0).2.2.len = 8 ∧
      (scpiLex_StringProgramData (stateOf "\"aa\"\"bb\"") token0).2.1.pos = 8 ∧
      tokSlice (stateOf "\"aa\"\"bb\"").buffer 0 8 = "\"aa\"\"bb\"".toList) ∧
    ((scpiLex_StringProgramData (stateOf "\"abc") token0).1 = 0 ∧
      (scpiLex_StringProgramData (stateOf "\"abc") token0).2.2.type = SCPI_TOKEN_UNKNOWN ∧
      (scpiLex_StringProgramData (stateOf "\"abc") token0).2.2.len = 0 ∧
      (scpiLex_StringProgramData (stateOf "\"abc") token0).2.1.pos = 0) := by
  refine ⟨?_, ?_, ?_, by decide, by decide⟩
  · simp [skipQuoteAux]
  · intro hne
    simp [skipQuoteAux, hne]
  · simp [skipQuoteAux]

/-- C5 witness: the undoubled-quote conclusion instantiated at the double
quote with `b` following. -/
theorem C5_string_quote_doubling_witness :
    skipQuoteAux dquote (dquote :: 'b' :: []) = 0 :=
  (C5_string_quote_doubling dquote 'b' []).2.1 (by decide)

theorem scpiLex_NondecimalNumericData_match (s : lex_state_t) (t : scpi_token_t)
    (h : (scpiLex_NondecimalNumericData s t).2.2.type ≠ SCPI_TOKEN_UNKNOWN) :
    (scpiLex_NondecimalNumericData s t).2.2.ptr = s.pos + 2 ∧
    (scpiLex_NondecimalNumericData s t).1 = (scpiLex_NondecimalNumericData s t).2.2.len + 2 ∧
    (scpiLex_NondecimalNumericData s t).2.2.len > 0 ∧
    ((scpiLex_NondecimalNumericData s t).2.1.pos : Int)
      = (s.pos : Int) + (scpiLex_NondecimalNumericData s t).1 := by
  unfold scpiLex_NondecimalNumericData at h ⊢
  dsimp only at h ⊢
  by_cases c1 : (skipChr s '#').1 = 1
  · rw [if_pos c1] at h ⊢
    have ep1 : (skipChr s '#').2.pos = s.pos + 1 := by rw [skipChr_pos, c1]
    by_cases c2 : (!is_eos (skipChr s '#').2) = true
    · rw [if_pos c2] at h ⊢
      by_cases c3 : isH (cur (skipChr s '#').2) = true
      · rw [if_pos c3] at h ⊢
        have eh : (skipHexNum { (skipChr s '#').2 with pos := (skipChr s '#').2.pos + 1 }).2.pos
            = ((skipChr s '#').2.pos + 1)
              + (skipHexNum { (skipChr s '#').2 with pos := (skipChr s '#').2.pos + 1 }).1 :=
          skipWhile_pos _ _
        split at h
        · rename_i hn
          split
          · rename_i hn2
            refine ⟨rfl, ?_, ?_, ?_⟩
            · split
              · rfl
              · rename_i hlen
                exfalso
                dsimp only at *
                omega
            · dsimp only at *
              omega
            · split
              · dsimp only at *
                omega
              · rename_i hlen
                exfalso
                dsimp only at *
                omega
          · rename_i hn2
            exact absurd hn hn2
        · rename_i hn
          dsimp only at h
          exact absurd rfl h
      · rw [if_neg c3] at h ⊢
        by_cases c4 : isQ (cur (skipChr s '#').2) = true
        · rw [if_pos c4] at h ⊢
          have eh : (skipOctNum { (skipChr s '#').2 with pos := (skipChr s '#').2.pos + 1 }).2.pos
              = ((skipChr s '#').2.pos + 1)
                + (skipOctNum { (skipChr s '#').2 with pos := (skipChr s '#').2.pos + 1 }).1 :=
            skipWhile_pos _ _
          split at h
          · rename_i hn
            split
            · rename_i hn2
              refine ⟨rfl, ?_, ?_, ?_⟩
              · split
                · rfl
                · rename_i hlen
                  exfalso
                  dsimp only at *
                  omega
              · dsimp only at *
                omega
              · split
                · dsimp only at *
                  omega
                · rename_i hlen
                  exfalso
                  dsimp only at *
                  omega
            · rename_i hn2
              exact absurd hn hn2
          · rename_i hn
            dsimp only at h
            exact absurd rfl h
        · rw [if_neg c4] at h ⊢
          by_cases c5 : isB (cur (skipChr s '#').2) = true
          · rw [if_pos c5] at h ⊢
            have eh : (skipBinNum { (skipChr s '#').2 with pos := (skipChr s '#').2.pos + 1 }).2.pos
                = ((skipChr s '#').2.pos + 1)
                  + (skipBinNum { (skipChr s '#').2 with pos := (skipChr s '#').2.pos + 1 }).1 :=
              skipWhile_pos _ _
            split at h
            · rename_i hn
              split
              · rename_i hn2
                refine ⟨rfl, ?_, ?_, ?_⟩
                · split
                  · rfl
                  · rename_i hlen
                    exfalso
                    dsimp only at *
                    omega
                · dsimp only at *
                  omega
                · split
                  · dsimp only at *
                    omega
                  · rename_i hlen
                    exfalso
                    dsimp only at *
                    omega
              · rename_i hn2
                exact absurd hn hn2
            · rename_i hn
              dsimp only at h
              exact absurd rfl h
          · rw [if_neg c5] at h ⊢
            split at h
            · rename_i hn
              exact absurd rfl hn
            · dsimp only at h
              exact absurd rfl h
    · rw [if_neg c2] at h ⊢
      split at h
      · rename_i hn
        exact absurd rfl hn
      · dsimp only at h
        exact absurd rfl h
  · rw [if_neg c1] at h ⊢
    split at h
    · rename_i hn
      exact absurd rfl hn
    · dsimp only at h
      exact absurd rfl h

/-- C6: a nondecimal match (`#H`/`#Q`/`#B` plus at least one digit of the
base) yields a token whose pointer skips the two prefix bytes, whose
length counts only the digit run, and a return count of length plus two
matching the cursor advance; zero digits after the prefix is a non-match
with the cursor restored; `#H2A` returns 4 with a HEXNUM token on `2A`,
and `#Q9` is a non-match. -/
theorem C6_nondecimal_numeric (s : lex_state_t) (t : scpi_token_t) :
    ((scpiLex_NondecimalNumericData s t).2.2.type ≠ SCPI_TOKEN_UNKNOWN →
      (scpiLex_NondecimalNumericData s t).2.2.ptr = s.pos + 2 ∧
      (scpiLex_NondecimalNumericData s t).1
        = (scpiLex_NondecimalNumericData s t).2.2.len + 2 ∧
      (scpiLex_NondecimalNumericData s t).2.2.len > 0 ∧
      ((scpiLex_NondecimalNumericData s t).2.1.pos : Int)
        = (s.pos : Int) + (scpiLex_NondecimalNumericData s t).1) ∧
    ((scpiLex_NondecimalNumericData s t).2.2.type = SCPI_TOKEN_UNKNOWN →
      (scpiLex_NondecimalNumericData s t).2.2.len = 0 ∧
        (scpiLex_NondecimalNumericData s t).2.1.pos = s.pos) ∧
    ((scpiLex_NondecimalNumericData (stateOf "#H2A") token0).1 = 4 ∧
      (scpiLex_NondecimalNumericData (stateOf "#H2A") token0).2.2.type = SCPI_TOKEN_HEXNUM ∧
      (scpiLex_NondecimalNumericData (stateOf "#H2A") token0).2.2.ptr = 2 ∧
      (scpiLex_NondecimalNumericData (stateOf "#H2A") token0).2.2.len = 2 ∧
      (scpiLex_NondecimalNumericData (stateOf "#H2A") token0).2.1.pos = 4 ∧
      tokSlice (stateOf "#H2A").buffer 2 2 = "2A".toList) ∧
    ((scpiLex_NondecimalNumericData (stateOf "#Q9") token0).1 = 0 ∧
      (scpiLex_NondecimalNumericData (stateOf "#Q9") token0).2.2.type = SCPI_TOKEN_UNKNOWN ∧
      (scpiLex_NondecimalNumericData (stateOf "#Q9") token0).2.2.len = 0 ∧
      (scpiLex_NondecimalNumericData (stateOf "#Q9") token0).2.1.pos = 0) :=
  ⟨scpiLex_NondecimalNumericData_match s t, scpiLex_NondecimalNumericData_unknown s t,
   by decide, by decide⟩

/-- C6 witness: the match conclusion instantiated on `#H2A`, whose token
kind is HEXNUM. -/
theorem C6_nondecimal_numeric_witness :
    (scpiLex_NondecimalNumericData (stateOf "#H2A") token0).2.2.ptr = (stateOf "#H2A").pos + 2 ∧
    (scpiLex_NondecimalNumericData (stateOf "#H2A") token0).1
      = (scpiLex_NondecimalNumericData (stateOf "#H2A") token0).2.2.len + 2 ∧
    (scpiLex_NondecimalNumericData (stateOf "#H2A") token0).2.2.len > 0 ∧
    ((scpiLex_NondecimalNumericData (stateOf "#H2A") token0).2.1.pos : Int)
      = ((stateOf "#H2A").pos : Int) + (scpiLex_NondecimalNumericData (stateOf "#H2A") token0).1 :=
  (C6_nondecimal_numeric (stateOf "#H2A") token0).1 (by decide)

theorem skipProgramMnemonic_neg_eos (s : lex_state_t)
    (h : (skipProgramMnemonic s).1 < 0) :
    is_eos (skipProgramMnemonic s).2 = true := by
  unfold skipProgramMnemonic at h ⊢
  dsimp only at h ⊢
  by_cases hg : (!is_eos s && c_isalpha (cur s)) = true
  · rw [if_pos hg] at h ⊢
    split at h
    · rename_i heos
      split
      · exact heos
      · rename_i heos2
        exact absurd heos heos2
    · rename_i heos
      split
      · rename_i heos2
        exact absurd heos2 heos
      · exfalso
        simp only [SKIP_OK] at h
        omega
  · rw [if_neg hg] at h ⊢
    split at h
    · rename_i heos
      split
      · exact heos
      · rename_i heos2
        exact absurd heos heos2
    · rename_i heos
      split
      · rename_i heos2
        exact absurd heos2 heos
      · exfalso
        simp only [SKIP_OK] at h
        omega

/-- C3 counterexample: on buffer `*A` the `*` is present and the mnemonic
scan stops at end-of-buffer (negative result), yet the token is classified
COMMON_PROGRAM_HEADER, not INCOMPLETE_COMMON_PROGRAM_HEADER; on buffer
`AB` the compound scan likewise ends mid-mnemonic at end-of-buffer yet
yields COMPOUND_PROGRAM_HEADER, not the incomplete kind. -/
theorem C3_counterexample_midmnemonic_eos :
    ((skipStar (stateOf "*A")).1 = 1 ∧
      (skipProgramMnemonic (skipStar (stateOf "*A")).2).1 < 0 ∧
      (scpiLex_ProgramHeader (stateOf "*A") token0).2.2.type
        = SCPI_TOKEN_COMMON_PROGRAM_HEADER) ∧
    ((skipProgramMnemonic (skipColon (stateOf "AB")).2).1 < 0 ∧
      (scpiLex_ProgramHeader (stateOf "AB") token0).2.2.type
        = SCPI_TOKEN_COMPOUND_PROGRAM_HEADER) := by decide

/-- C3 (amended): with `*` present, a mnemonic scan that consumes nothing
(result 0) classifies as INCOMPLETE_COMMON_PROGRAM_HEADER and compound
parsing is not attempted, but a scan that ends mid-mnemonic at
end-of-buffer (negative result) classifies as the complete
COMMON_PROGRAM_HEADER; without `*`, a compound scan whose first mnemonic
ends mid-mnemonic at end-of-buffer classifies as the complete
COMPOUND_PROGRAM_HEADER; inside the colon-repeat loop, from any state, a
colon followed by a mnemonic that ends mid-mnemonic at end-of-buffer
makes the loop report a complete header while a colon followed by no
mnemonic makes it report incomplete, and via the loop outcome the overall
classification is the complete (possibly query) compound kind
respectively INCOMPLETE_COMPOUND_PROGRAM_HEADER; concretely `A:B` is
COMPOUND_PROGRAM_HEADER, `:AB:` is INCOMPLETE_COMPOUND_PROGRAM_HEADER,
and a trailing `?` selects the query variant. -/
theorem C3_program_header_classification (s : lex_state_t) (t : scpi_token_t) :
    ((skipStar s).1 = 1 →
      (skipProgramMnemonic (skipStar s).2).1 = 0 →
      (scpiLex_ProgramHeader s t).2.2.type
        = SCPI_TOKEN_INCOMPLETE_COMMON_PROGRAM_HEADER) ∧
    ((skipStar s).1 = 1 →
      (skipProgramMnemonic (skipStar s).2).1 < 0 →
      (scpiLex_ProgramHeader s t).2.2.type = SCPI_TOKEN_COMMON_PROGRAM_HEADER) ∧
    (¬ (skipStar s).1 = 1 →
      (skipProgramMnemonic (skipColon s).2).1 < 0 →
      (scpiLex_ProgramHeader s t).2.2.type = SCPI_TOKEN_COMPOUND_PROGRAM_HEADER) ∧
    (∀ (u : lex_state_t) (fuel : Nat),
      (skipColon u).1 = 1 →
      (skipProgramMnemonic (skipColon u).2).1 < 0 →
      (compoundLoop (fuel + 1) u).1 = SKIP_OK) ∧
    (∀ (u : lex_state_t) (fuel : Nat),
      (skipColon u).1 = 1 →
      (skipProgramMnemonic (skipColon u).2).1 = 0 →
      (compoundLoop (fuel + 1) u).1 = SKIP_INCOMPLETE) ∧
    (¬ (skipStar s).1 = 1 →
      (skipProgramMnemonic (skipColon s).2).1 ≥ 1 →
      (compoundLoop ((skipProgramMnemonic (skipColon s).2).2.buffer.length + 1)
          (skipProgramMnemonic (skipColon s).2).2).1 = SKIP_OK →
      (scpiLex_ProgramHeader s t).2.2.type = SCPI_TOKEN_COMPOUND_PROGRAM_HEADER ∨
        (scpiLex_ProgramHeader s t).2.2.type = SCPI_TOKEN_COMPOUND_QUERY_PROGRAM_HEADER) ∧
    (¬ (skipStar s).1 = 1 →
      (skipProgramMnemonic (skipColon s).2).1 ≥ 1 →
      (compoundLoop ((skipProgramMnemonic (skipColon s).2).2.buffer.length + 1)
          (skipProgramMnemonic (skipColon s).2).2).1 = SKIP_INCOMPLETE →
      (scpiLex_ProgramHeader s t).2.2.type
        = SCPI_TOKEN_INCOMPLETE_COMPOUND_PROGRAM_HEADER) ∧
    ((scpiLex_ProgramHeader (stateOf "A:B") token0).2.2.type
        = SCPI_TOKEN_COMPOUND_PROGRAM_HEADER) ∧
    ((scpiLex_ProgramHeader (stateOf ":AB:") token0).2.2.type
        = SCPI_TOKEN_INCOMPLETE_COMPOUND_PROGRAM_HEADER) ∧
    ((scpiLex_ProgramHeader (stateOf ":SYST:ERR?") token0).2.2.type
        = SCPI_TOKEN_COMPOUND_QUERY_PROGRAM_HEADER) := by
  refine ⟨?_, ?_, ?_, ?_, ?_, ?_, ?_, by decide, by decide, by decide⟩
  · intro hstar hres
    have hc : skipCommonProgramHeader s
        = (SKIP_INCOMPLETE, (skipProgramMnemonic (skipStar s).2).2) := by
      unfold skipCommonProgramHeader
      rw [if_pos hstar]
      dsimp only
      by_cases heos : is_eos (skipProgramMnemonic (skipStar s).2).2 = true
      · rw [if_pos ⟨by simp only [hres, SKIP_NONE], heos⟩]
      · rw [if_neg (fun hx => heos hx.2),
          if_neg (by simp only [hres, SKIP_INCOMPLETE, SKIP_OK]; omega)]
    have hcl : scpiLex_ProgramHeaderClassify s
        = (SCPI_TOKEN_INCOMPLETE_COMMON_PROGRAM_HEADER,
            (skipProgramMnemonic (skipStar s).2).2) := by
      unfold scpiLex_ProgramHeaderClassify
      dsimp only
      rw [hc]
      dsimp only
      rw [if_neg (by decide), if_pos (by decide)]
    unfold scpiLex_ProgramHeader
    dsimp only
    rw [hcl]
    dsimp only
    rw [if_pos (by decide : SCPI_TOKEN_INCOMPLETE_COMMON_PROGRAM_HEADER ≠ SCPI_TOKEN_UNKNOWN)]
  · intro hstar hneg
    have heos := skipProgramMnemonic_neg_eos (skipStar s).2 hneg
    have hc : skipCommonProgramHeader s
        = (SKIP_OK, (skipProgramMnemonic (skipStar s).2).2) := by
      unfold skipCommonProgramHeader
      rw [if_pos hstar]
      dsimp only
      rw [if_neg (by intro hx; simp only [SKIP_NONE] at hx; omega),
        if_pos (Or.inl (by simp only [SKIP_INCOMPLETE]; omega))]
    have hq := skipChr_of_eos '?' heos
    have hcl : scpiLex_ProgramHeaderClassify s
        = (SCPI_TOKEN_COMMON_PROGRAM_HEADER, (skipProgramMnemonic (skipStar s).2).2) := by
      unfold scpiLex_ProgramHeaderClassify
      dsimp only
      rw [hc]
      dsimp only
      rw [if_pos (by decide : (SKIP_OK : Int) ≥ SKIP_OK), hq]
      dsimp only
      rw [if_neg (by decide : ¬ ((0 : Nat) ≥ 1))]
    unfold scpiLex_ProgramHeader
    dsimp only
    rw [hcl]
    dsimp only
    rw [if_pos (by decide : SCPI_TOKEN_COMMON_PROGRAM_HEADER ≠ SCPI_TOKEN_UNKNOWN)]
  · intro hnstar hneg
    have heos := skipProgramMnemonic_neg_eos (skipColon s).2 hneg
    have hc : skipCommonProgramHeader s = (SKIP_NONE, s) := by
      unfold skipCommonProgramHeader
      rw [if_neg hnstar]
    have hp : skipCompoundProgramHeader s
        = (SKIP_OK, (skipProgramMnemonic (skipColon s).2).2) := by
      unfold skipCompoundProgramHeader
      dsimp only
      rw [if_neg (by simp only [SKIP_OK]; omega),
        if_pos (by simp only [SKIP_INCOMPLETE]; omega)]
    have hq := skipChr_of_eos '?' heos
    have hcl : scpiLex_ProgramHeaderClassify s
        = (SCPI_TOKEN_COMPOUND_PROGRAM_HEADER, (skipProgramMnemonic (skipColon s).2).2) := by
      unfold scpiLex_ProgramHeaderClassify
      dsimp only
      rw [hc]
      dsimp only
      rw [if_neg (by decide : ¬ ((SKIP_NONE : Int) ≥ SKIP_OK)),
        if_neg (by decide : ¬ ((SKIP_NONE : Int) ≤ SKIP_INCOMPLETE)), hp]
      dsimp only
      rw [if_pos (by decide : (SKIP_OK : Int) ≥ SKIP_OK), hq]
      dsimp only
      rw [if_neg (by decide : ¬ ((0 : Nat) ≥ 1))]
    unfold scpiLex_ProgramHeader
    dsimp only
    rw [hcl]
    dsimp only
    rw [if_pos (by decide : SCPI_TOKEN_COMPOUND_PROGRAM_HEADER ≠ SCPI_TOKEN_UNKNOWN)]
  · intro u fuel hcol hneg
    simp only [compoundLoop]
    rw [if_pos hcol]
    rw [if_pos (by simp only [SKIP_INCOMPLETE]; omega)]
  · intro u fuel hcol hz
    simp only [compoundLoop]
    rw [if_pos hcol]
    rw [if_neg (by simp only [SKIP_INCOMPLETE]; omega),
      if_pos (by simp only [SKIP_NONE]; omega)]
  · intro hnstar hfirst hloop
    have hc : skipCommonProgramHeader s = (SKIP_NONE, s) := by
      unfold skipCommonProgramHeader
      rw [if_neg hnstar]
    have hcomp2 : skipCompoundProgramHeader s
        = (SKIP_OK, (compoundLoop ((skipProgramMnemonic (skipColon s).2).2.buffer.length + 1)
            (skipProgramMnemonic (skipColon s).2).2).2) := by
      unfold skipCompoundProgramHeader
      dsimp only
      rw [if_pos (by simp only [SKIP_OK]; omega)]
      rw [← hloop]
    unfold scpiLex_ProgramHeader scpiLex_ProgramHeaderClassify
    dsimp only
    rw [hc]
    dsimp only
    rw [if_neg (by decide : ¬ ((SKIP_NONE : Int) ≥ SKIP_OK)),
      if_neg (by decide : ¬ ((SKIP_NONE : Int) ≤ SKIP_INCOMPLETE)), hcomp2]
    dsimp only
    rw [if_pos (by decide : (SKIP_OK : Int) ≥ SKIP_OK)]
    by_cases hq : (skipChr (compoundLoop
        ((skipProgramMnemonic (skipColon s).2).2.buffer.length + 1)
        (skipProgramMnemonic (skipColon s).2).2).2 '?').1 ≥ 1
    · rw [if_pos hq]
      dsimp only
      rw [if_pos (by decide : SCPI_TOKEN_COMPOUND_QUERY_PROGRAM_HEADER ≠ SCPI_TOKEN_UNKNOWN)]
      exact Or.inr rfl
    · rw [if_neg hq]
      dsimp only
      rw [if_pos (by decide : SCPI_TOKEN_COMPOUND_PROGRAM_HEADER ≠ SCPI_TOKEN_UNKNOWN)]
      exact Or.inl rfl
  · intro hnstar hfirst hloop
    have hc : skipCommonProgramHeader s = (SKIP_NONE, s) := by
      unfold skipCommonProgramHeader
      rw [if_neg hnstar]
    have hcomp2 : skipCompoundProgramHeader s
        = (SKIP_INCOMPLETE,
           (compoundLoop ((skipProgramMnemonic (skipColon s).2).2.buffer.length + 1)
            (skipProgramMnemonic (skipColon s).2).2).2) := by
      unfold skipCompoundProgramHeader
      dsimp only
      rw [if_pos (by simp only [SKIP_OK]; omega)]
      rw [← hloop]
    unfold scpiLex_ProgramHeader scpiLex_ProgramHeaderClassify
    dsimp only
    rw [hc]
    dsimp only
    rw [if_neg (by decide : ¬ ((SKIP_NONE : Int) ≥ SKIP_OK)),
      if_neg (by decide : ¬ ((SKIP_NONE : Int) ≤ SKIP_INCOMPLETE)), hcomp2]
    dsimp only
    rw [if_neg (by decide : ¬ ((SKIP_INCOMPLETE : Int) ≥ SKIP_OK)),
      if_pos (by decide : (SKIP_INCOMPLETE : Int) ≤ SKIP_INCOMPLETE)]
    dsimp only
    rw [if_pos (by decide : SCPI_TOKEN_INCOMPLETE_COMPOUND_PROGRAM_HEADER ≠ SCPI_TOKEN_UNKNOWN)]

/-- C3 witness: the incomplete-common conclusion instantiated on `*1`
(star present, mnemonic scan consumes nothing, buffer not exhausted). -/
theorem C3_program_header_classification_witness :
    (scpiLex_ProgramHeader (stateOf "*1") token0).2.2.type
      = SCPI_TOKEN_INCOMPLETE_COMMON_PROGRAM_HEADER :=
  (C3_program_header_classification (stateOf "*1") token0).1 (by decide) (by decide)

theorem readBlockLength_eq (ds rest : List Char) (acc : Nat) (s : lex_state_t)
    (hd : s.buffer.drop s.pos = ds ++ rest)
    (hdig : ∀ c ∈ ds, c_isdigit c = true) :
    readBlockLength ds.length acc s
      = (0, digitsAcc acc ds, { s with pos := s.pos + ds.length }) := by
  induction ds generalizing acc s with
  | nil => rfl
  | cons c cs ih =>
    have hcur : cur s = c := cur_of_drop hd
    have heos : is_eos s = false := is_eos_false_of_drop hd
    have hd1 : s.buffer.drop (s.pos + 1) = cs ++ rest := drop_succ_of_drop hd
    have hdigc : c_isdigit c = true := hdig c (List.mem_cons_self c cs)
    have hdig1 : ∀ x ∈ cs, c_isdigit x = true := fun x hx => hdig x (List.mem_cons_of_mem c hx)
    rw [List.length_cons]
    simp only [readBlockLength]
    rw [hcur, heos]
    rw [if_pos (by simp [hdigc])]
    rw [ih (acc * 10 + (c.toNat - 48)) ⟨s.buffer, s.pos + 1⟩ hd1 hdig1]
    have hadd : s.pos + 1 + cs.length = s.pos + (cs.length + 1) := by omega
    rw [hadd]
    rfl

/-- C2: for `#`, a non-zero digit `d`, the `d` length digits `ds` giving
length `L = digitsAcc 0 ds` and the remaining bytes `rest`: when at least
`L` payload bytes remain the detector matches with the token's byte-range
exactly the `L` payload bytes (header stripped) and return count
`L + 2 + ds.length`; when fewer than `L` remain the outcome is incomplete
with the cursor at end-of-buffer; `#15HELLO` yields the 5-byte payload
`HELLO`, `#15HEL` is incomplete, and `#0` is a non-match with the cursor
restored. -/
theorem C2_arbitrary_block (s : lex_state_t) (t : scpi_token_t)
    (d : Char) (ds rest : List Char)
    (hdrop : s.buffer.drop s.pos = '#' :: d :: (ds ++ rest))
    (hd : isNonzeroDigit d = true)
    (hdig : ∀ c ∈ ds, c_isdigit c = true)
    (hcount : d.toNat - 48 = ds.length) :
    (digitsAcc 0 ds ≤ rest.length →
      (scpiLex_ArbitraryBlockProgramData s t).1
          = (digitsAcc 0 ds : Int) + 2 + ds.length ∧
      (scpiLex_ArbitraryBlockProgramData s t).2.2.type
          = SCPI_TOKEN_ARBITRARY_BLOCK_PROGRAM_DATA ∧
      (scpiLex_ArbitraryBlockProgramData s t).2.2.ptr = s.pos + 2 + ds.length ∧
      (scpiLex_ArbitraryBlockProgramData s t).2.2.len = (digitsAcc 0 ds : Int) ∧
      (scpiLex_ArbitraryBlockProgramData s t).2.1.pos
          = s.pos + 2 + ds.length + digitsAcc 0 ds ∧
      tokSlice s.buffer (s.pos + 2 + ds.length) (digitsAcc 0 ds)
          = rest.take (digitsAcc 0 ds)) ∧
    (rest.length < digitsAcc 0 ds →
      (scpiLex_ArbitraryBlockProgramData s t).1 = 0 ∧
      (scpiLex_ArbitraryBlockProgramData s t).2.2.type = SCPI_TOKEN_UNKNOWN ∧
      (scpiLex_ArbitraryBlockProgramData s t).2.2.len = 0 ∧
      (scpiLex_ArbitraryBlockProgramData s t).2.1.pos = s.buffer.length) ∧
    ((scpiLex_ArbitraryBlockProgramData (stateOf "#15HELLO") token0).1 = 8 ∧
      (scpiLex_ArbitraryBlockProgramData (stateOf "#15HELLO") token0).2.2.type
        = SCPI_TOKEN_ARBITRARY_BLOCK_PROGRAM_DATA ∧
      (scpiLex_ArbitraryBlockProgramData (stateOf "#15HELLO") token0).2.2.ptr = 3 ∧
      (scpiLex_ArbitraryBlockProgramData (stateOf "#15HELLO") token0).2.2.len = 5 ∧
      tokSlice (stateOf "#15HELLO").buffer 3 5 = "HELLO".toList) ∧
    ((scpiLex_ArbitraryBlockProgramData (stateOf "#15HEL") token0).1 = 0 ∧
      (scpiLex_ArbitraryBlockProgramData (stateOf "#15HEL") token0).2.2.type
        = SCPI_TOKEN_UNKNOWN ∧
      (scpiLex_ArbitraryBlockProgramData (stateOf "#15HEL") token0).2.2.len = 0 ∧
      (scpiLex_ArbitraryBlockProgramData (stateOf "#15HEL") token0).2.1.pos = 6) ∧
    ((scpiLex_ArbitraryBlockProgramData (stateOf "#0") token0).1 = 0 ∧
      (scpiLex_ArbitraryBlockProgramData (stateOf "#0") token0).2.2.type
        = SCPI_TOKEN_UNKNOWN ∧
      (scpiLex_ArbitraryBlockProgramData (stateOf "#0") token0).2.2.len = 0 ∧
      (scpiLex_ArbitraryBlockProgramData (stateOf "#0") token0).2.1.pos = 0) := by
  have hpos : s.pos < s.buffer.length := pos_lt_of_drop hdrop
  have hlenB : s.buffer.length = s.pos + 2 + ds.length + rest.length := by
    have h1 := length_of_drop hdrop (Nat.le_of_lt hpos)
    simp [List.length_append] at h1
    omega
  have h0e : is_eos s = false := is_eos_false_of_drop hdrop
  have h0c : cur s = '#' := cur_of_drop hdrop
  have hchr : skipChr s '#' = (1, { s with pos := s.pos + 1 }) := skipChr_of_guard h0e h0c
  have hdrop1 : s.buffer.drop (s.pos + 1) = d :: (ds ++ rest) := drop_succ_of_drop hdrop
  have h1c : cur ⟨s.buffer, s.pos + 1⟩ = d := cur_of_drop hdrop1
  have h1e : is_eos (⟨s.buffer, s.pos + 1⟩ : lex_state_t) = false := is_eos_false_of_drop hdrop1
  have hdrop2 : s.buffer.drop (s.pos + 1 + 1) = ds ++ rest := drop_succ_of_drop hdrop1
  have hrd : readBlockLength ds.length 0 ⟨s.buffer, s.pos + 1 + 1⟩
      = (0, digitsAcc 0 ds, ⟨s.buffer, s.pos + 1 + 1 + ds.length⟩) :=
    readBlockLength_eq ds rest 0 ⟨s.buffer, s.pos + 1 + 1⟩ hdrop2 hdig
  have hdr : s.buffer.drop (s.pos + 2 + ds.length) = rest := by
    have h2 := List.drop_drop ds.length (s.pos + 2) s.buffer
    rw [show s.buffer.drop (s.pos + 2) = ds ++ rest from hdrop2, List.drop_left] at h2
    exact h2.symm
  refine ⟨?_, ?_, by decide, by decide, by decide⟩
  · intro hL
    have hble : s.pos + 1 + 1 + ds.length + digitsAcc 0 ds ≤ s.buffer.length := by omega
    have hscan : scpiLex_ArbitraryBlockScan s { t with ptr := s.pos }
        = (1, ⟨s.buffer, s.pos + 1 + 1 + ds.length + digitsAcc 0 ds⟩,
           ⟨s.pos + 1 + 1 + ds.length + digitsAcc 0 ds - digitsAcc 0 ds,
            (digitsAcc 0 ds : Int), t.type⟩) := by
      unfold scpiLex_ArbitraryBlockScan
      rw [hchr]
      dsimp only
      rw [if_pos rfl]
      rw [h1e, h1c, hd]
      rw [if_pos (by decide)]
      rw [hcount]
      rw [hrd]
      dsimp only
      rw [if_pos rfl]
      rw [if_pos hble]
    unfold scpiLex_ArbitraryBlockProgramData
    dsimp only
    rw [hscan]
    dsimp only
    rw [if_pos rfl]
    refine ⟨?_, rfl, ?_, rfl, ?_, ?_⟩
    · dsimp only
      omega
    · dsimp only
      omega
    · dsimp only
    · unfold tokSlice
      rw [hdr]
  · intro hL2
    have hble2 : ¬ (s.pos + 1 + 1 + ds.length + digitsAcc 0 ds ≤ s.buffer.length) := by
      omega
    have hscan : scpiLex_ArbitraryBlockScan s { t with ptr := s.pos }
        = (0, ⟨s.buffer, s.pos + 1 + 1 + ds.length + digitsAcc 0 ds⟩,
           ⟨s.pos, t.len, t.type⟩) := by
      unfold scpiLex_ArbitraryBlockScan
      rw [hchr]
      dsimp only
      rw [if_pos rfl]
      rw [h1e, h1c, hd]
      rw [if_pos (by decide)]
      rw [hcount]
      rw [hrd]
      dsimp only
      rw [if_pos rfl]
      rw [if_neg hble2]
    unfold scpiLex_ArbitraryBlockProgramData
    dsimp only
    rw [hscan]
    dsimp only
    rw [if_neg (by decide : ¬ ((0 : Int) = 1)), if_pos rfl]
    refine ⟨?_, rfl, rfl, ?_⟩
    · first | (dsimp only; omega) | omega
    · first | (dsimp only; rfl) | rfl

/-- C2 witness: the matching conclusion instantiated on `#15HELLO`
(`d = 1`, one length digit `5`, payload `HELLO`). -/
theorem C2_arbitrary_block_witness :
    (scpiLex_ArbitraryBlockProgramData (stateOf "#15HELLO") token0).1
        = (digitsAcc 0 ['5'] : Int) + 2 + (['5'] : List Char).length ∧
    (scpiLex_ArbitraryBlockProgramData (stateOf "#15HELLO") token0).2.2.type
        = SCPI_TOKEN_ARBITRARY_BLOCK_PROGRAM_DATA ∧
    (scpiLex_ArbitraryBlockProgramData (stateOf "#15HELLO") token0).2.2.ptr
        = (stateOf "#15HELLO").pos + 2 + (['5'] : List Char).length ∧
    (scpiLex_ArbitraryBlockProgramData (stateOf "#15HELLO") token0).2.2.len
        = (digitsAcc 0 ['5'] : Int) ∧
    (scpiLex_ArbitraryBlockProgramData (stateOf "#15HELLO") token0).2.1.pos
        = (stateOf "#15HELLO").pos + 2 + (['5'] : List Char).length + digitsAcc 0 ['5'] ∧
    tokSlice (stateOf "#15HELLO").buffer
        ((stateOf "#15HELLO").pos + 2 + (['5'] : List Char).length) (digitsAcc 0 ['5'])
      = ("HELLO".toList).take (digitsAcc 0 ['5']) :=
  (C2_arbitrary_block (stateOf "#15HELLO") token0 '1' ['5'] "HELLO".toList
      (by decide) (by decide) (by decide) (by decide)).1 (by decide)

theorem tokSlice_add (B : List Char) (off a b : Nat) :
    tokSlice B off (a + b) = tokSlice B off a ++ tokSlice B (off + a) b := by
  unfold tokSlice
  rw [List.take_add, List.drop_drop]

theorem scpiLex_ArbitraryBlockScan_valid (s : lex_state_t) (t0 : scpi_token_t) :
    (scpiLex_ArbitraryBlockScan s t0).1 = 1 →
      ((scpiLex_ArbitraryBlockScan s t0).2.2.ptr : Int)
          + (scpiLex_ArbitraryBlockScan s t0).2.2.len
          = ((scpiLex_ArbitraryBlockScan s t0).2.1.pos : Int) ∧
      0 ≤ (scpiLex_ArbitraryBlockScan s t0).2.2.len ∧
      s.pos ≤ (scpiLex_ArbitraryBlockScan s t0).2.2.ptr := by
  unfold scpiLex_ArbitraryBlockScan
  dsimp only
  split
  · rename_i hsharp
    have h1 := skipChr_stepOk s '#'
    have hrd := readBlockLength_stepOk ((cur (skipChr s '#').2).toNat - 48) 0
      { (skipChr s '#').2 with pos := (skipChr s '#').2.pos + 1 }
    split
    · rename_i hguard
      have hlt : (skipChr s '#').2.pos < (skipChr s '#').2.buffer.length := by
        simp only [Bool.and_eq_true, Bool.not_eq_true'] at hguard
        exact not_eos_lt hguard.1
      have hchain := stepOk_trans (stepOk_trans h1 (stepOk_succ _ hlt)) hrd
      split
      · split
        · intro hone
          dsimp only
          refine ⟨?_, ?_, ?_⟩
          · rw [Nat.add_sub_cancel]
            omega
          · omega
          · rw [Nat.add_sub_cancel]
            exact hchain.2.1
        · intro hone
          simp at hone
      · split
        · intro hone
          simp at hone
        · intro hone
          simp at hone
    · split
      · intro hone
        simp at hone
      · intro hone
        simp at hone
  · intro hone
    simp at hone

/-- C8 counterexample: with the opening parenthesis absent but a stale
positive caller-supplied `len`, `scpiLex_ProgramExpression` reports a
successful match (kind PROGRAM_EXPRESSION, return count 3) while the
cursor does not advance at all, so the returned consumed-length does not
equal the number of bytes the cursor moved. -/
theorem C8_counterexample_stale_len_mismatch :
    (scpiLex_ProgramExpression (stateOf "y") ⟨0, 3, SCPI_TOKEN_UNKNOWN⟩).2.2.type
        = SCPI_TOKEN_PROGRAM_EXPRESSION ∧
    (scpiLex_ProgramExpression (stateOf "y") ⟨0, 3, SCPI_TOKEN_UNKNOWN⟩).1 = 3 ∧
    (scpiLex_ProgramExpression (stateOf "y") ⟨0, 3, SCPI_TOKEN_UNKNOWN⟩).2.1.pos = 0 ∧
    (stateOf "y").pos = 0 := by decide

/-- C8 (amended): for the prefix-stripping detectors the claim cites the
property holds: a matched non-decimal numeric advances the cursor by
exactly the returned count and the two stripped prefix bytes concatenated
with the token's byte-range reconstruct the consumed span; a matched
arbitrary block advances the cursor by exactly the returned count and its
header bytes (start of the consumed span up to the token pointer)
concatenated with the token's byte-range reconstruct the consumed span;
on `#15HELLO` that span is the header `#15` concatenated with the payload
`HELLO`.  (`scpiLex_ProgramExpression` with a stale positive
caller-supplied `len` violates the original universal statement.) -/
theorem C8_match_consumed_reconstruction (s : lex_state_t) (t : scpi_token_t) :
    ((scpiLex_NondecimalNumericData s t).2.2.type ≠ SCPI_TOKEN_UNKNOWN →
      ((scpiLex_NondecimalNumericData s t).2.1.pos : Int)
          = (s.pos : Int) + (scpiLex_NondecimalNumericData s t).1 ∧
      tokSlice s.buffer s.pos ((scpiLex_NondecimalNumericData s t).1).toNat
        = tokSlice s.buffer s.pos 2
          ++ tokSlice s.buffer ((scpiLex_NondecimalNumericData s t).2.2.ptr)
              (((scpiLex_NondecimalNumericData s t).2.2.len).toNat)) ∧
    ((scpiLex_ArbitraryBlockProgramData s t).2.2.type
          = SCPI_TOKEN_ARBITRARY_BLOCK_PROGRAM_DATA →
      ((scpiLex_ArbitraryBlockProgramData s t).2.1.pos : Int)
          = (s.pos : Int) + (scpiLex_ArbitraryBlockProgramData s t).1 ∧
      tokSlice s.buffer s.pos ((scpiLex_ArbitraryBlockProgramData s t).1).toNat
        = tokSlice s.buffer s.pos
            ((scpiLex_ArbitraryBlockProgramData s t).2.2.ptr - s.pos)
          ++ tokSlice s.buffer ((scpiLex_ArbitraryBlockProgramData s t).2.2.ptr)
              (((scpiLex_ArbitraryBlockProgramData s t).2.2.len).toNat)) ∧
    ((scpiLex_ArbitraryBlockProgramData (stateOf "#15HELLO") token0).1 = 8 ∧
      (scpiLex_ArbitraryBlockProgramData (stateOf "#15HELLO") token0).2.1.pos = 8 ∧
      tokSlice (stateOf "#15HELLO").buffer 0 8
        = tokSlice (stateOf "#15HELLO").buffer 0 3
            ++ tokSlice (stateOf "#15HELLO").buffer 3 5) := by
  refine ⟨?_, ?_, by decide⟩
  · intro h
    obtain ⟨hptr, hret, hlen, hpos⟩ := scpiLex_NondecimalNumericData_match s t h
    refine ⟨hpos, ?_⟩
    have h2 : ((scpiLex_NondecimalNumericData s t).1).toNat
        = 2 + ((scpiLex_NondecimalNumericData s t).2.2.len).toNat := by omega
    rw [h2, hptr]
    exact tokSlice_add s.buffer s.pos 2 (((scpiLex_NondecimalNumericData s t).2.2.len).toNat)
  · intro h
    have hv := scpiLex_ArbitraryBlockScan_valid s { t with ptr := s.pos }
    unfold scpiLex_ArbitraryBlockProgramData at h ⊢
    dsimp only at h ⊢
    split at h
    · rename_i hone
      obtain ⟨he, hl, hp⟩ := hv hone
      split
      · dsimp only
        refine ⟨by omega, ?_⟩
        have e1 : ((scpiLex_ArbitraryBlockScan s { t with ptr := s.pos }).2.2.len
            + (((scpiLex_ArbitraryBlockScan s { t with ptr := s.pos }).2.2.ptr : Int)
              - (s.pos : Int))).toNat
            = ((scpiLex_ArbitraryBlockScan s { t with ptr := s.pos }).2.2.ptr - s.pos)
              + ((scpiLex_ArbitraryBlockScan s { t with ptr := s.pos }).2.2.len).toNat := by
          omega
        have e2 : s.pos
              + ((scpiLex_ArbitraryBlockScan s { t with ptr := s.pos }).2.2.ptr - s.pos)
            = (scpiLex_ArbitraryBlockScan s { t with ptr := s.pos }).2.2.ptr := by
          omega
        rw [e1, tokSlice_add, e2]
      · rename_i hne
        exact absurd hone hne
    · rename_i hne
      split at h
      · simp at h
      · simp at h

/-- C8 witness: the non-decimal numeric conclusion instantiated on `#B01`
(binary prefix, two digit bytes). -/
theorem C8_match_consumed_reconstruction_witness :
    ((scpiLex_NondecimalNumericData (stateOf "#B01") token0).2.1.pos : Int)
        = ((stateOf "#B01").pos : Int)
          + (scpiLex_NondecimalNumericData (stateOf "#B01") token0).1 ∧
    tokSlice (stateOf "#B01").buffer (stateOf "#B01").pos
        ((scpiLex_NondecimalNumericData (stateOf "#B01") token0).1).toNat
      = tokSlice (stateOf "#B01").buffer (stateOf "#B01").pos 2
        ++ tokSlice (stateOf "#B01").buffer
            ((scpiLex_NondecimalNumericData (stateOf "#B01") token0).2.2.ptr)
            (((scpiLex_NondecimalNumericData (stateOf "#B01") token0).2.2.len).toNat) :=
  (C8_match_consumed_reconstruction (stateOf "#B01") token0).1 (by decide)
